import Mathlib

set_option maxHeartbeats 2000000

/-!
Verification of the grv configuration parser (cmd/grv/config_parse.go).

The parser pulls tokens from a scanner and turns them into typed command
values.  The scanner is external to the sources; it is modelled as a list of
scan results, each of which is either a token or a scanner error.  Once the
list is exhausted the scanner keeps producing EOF tokens, matching the
behaviour of a scanner reading an exhausted input stream.
-/

/-- Token kinds produced by the config scanner (spec section 3). -/
inductive ConfigTokenType where
  | CtkInvalid
  | CtkWord
  | CtkOption
  | CtkWhiteSpace
  | CtkComment
  | CtkTerminator
  | CtkEOF
deriving DecidableEq, Repr

/-- Start position of a token: line and column. -/
structure ConfigScannerPos where
  line : Nat
  col : Nat
deriving DecidableEq, Repr

/-- A token produced by the config scanner, with its kind, literal text,
start position and optional embedded lexical error. -/
structure ConfigToken where
  tokenType : ConfigTokenType
  value : String
  startPos : ConfigScannerPos
  err : Option String
deriving DecidableEq, Repr

/-- One result of calling the scanner: a token, or a raw scanner failure. -/
inductive ScanResult where
  | ok (token : ConfigToken)
  | fail (e : String)
deriving DecidableEq, Repr

/-- Orientation of a split view.  The ContainerOrientation type is defined in
the view code of the repository; only its three constructors are used by
config_parse.go. -/
inductive ContainerOrientation where
  | CoDynamic
  | CoHorizontal
  | CoVertical
deriving DecidableEq, Repr

/-- The closed family of config command values (the ConfigCommand interface
and its nine implementing structs).  Optional fields are Option-valued,
matching nilable token pointers in the structs. -/
inductive ConfigCommand where
  | SetCommand (varToken valToken : ConfigToken)
  | ThemeCommand (name component bgcolor fgcolor : Option ConfigToken)
  | MapCommand (view fromToken toToken : ConfigToken)
  | UnmapCommand (view fromToken : ConfigToken)
  | QuitCommand
  | NewTabCommand (tabName : ConfigToken)
  | RemoveTabCommand
  | AddViewCommand (view : ConfigToken) (args : List ConfigToken)
  | SplitViewCommand (orientation : ContainerOrientation) (view : ConfigToken)
      (args : List ConfigToken)
deriving DecidableEq, Repr

def setCommand : String := "set"

def themeCommand : String := "theme"

def mapCommand : String := "map"

def unmapCommand : String := "unmap"

def quitCommand : String := "q"

def addtabCommand : String := "addtab"

def removetabCommand : String := "rmtab"

def addviewCommand : String := "addview"

def vsplitCommand : String := "vsplit"

def hsplitCommand : String := "hsplit"

def splitCommand : String := "split"

/-- Renders the formatted error produced by generateConfigError: an optional
"source:line:col " prefix, the message, and the token's embedded lexical
error appended as ": lexError" when present. -/
def generateConfigError (inputSource : String) (token : ConfigToken)
    (errorMessage : String) : String :=
  (if inputSource = "" then ""
   else inputSource ++ ":" ++ toString token.startPos.line ++ ":" ++
     toString token.startPos.col ++ " ")
  ++ errorMessage
  ++ (match token.err with
      | none => ""
      | some e => ": " ++ e)

/-- Builds a SetCommand from the two matched tokens (setCommandConstructor).
The final arm models the Go runtime panic on a short token slice; the parser
always supplies exactly the tokens matched by the grammar, so it is
unreachable from the parser. -/
def setCommandConstructor (inputSource : String) (commandToken : ConfigToken)
    (tokens : List ConfigToken) : Except String ConfigCommand :=
  match inputSource, commandToken, tokens with
  | _, _, v :: val :: _ => Except.ok (ConfigCommand.SetCommand v val)
  | _, _, _ => Except.error "runtime error: index out of range"

/-- Mutable state of the ThemeCommand value being built by
themeCommandConstructor; all fields start unset. -/
structure themeCommandState where
  name : Option ConfigToken := none
  component : Option ConfigToken := none
  bgcolor : Option ConfigToken := none
  fgcolor : Option ConfigToken := none
deriving DecidableEq, Repr

/-- The optionSetters lookup table of themeCommandConstructor: maps a
recognized option string to the field update it performs. -/
def themeOptionSetter (opt : String) :
    Option (themeCommandState → ConfigToken → themeCommandState) :=
  if opt = "--name" then some (fun st v => { st with name := some v })
  else if opt = "--component" then some (fun st v => { st with component := some v })
  else if opt = "--bgcolor" then some (fun st v => { st with bgcolor := some v })
  else if opt = "--fgcolor" then some (fun st v => { st with fgcolor := some v })
  else none

/-- The loop of themeCommandConstructor: walk the tokens two at a time as
(option, value) pairs, applying the setter for each recognized option and
failing on the first unrecognized one.  A trailing unpaired token is
ignored, as in the Go loop condition i+1 < len(tokens). -/
def themeGo (inputSource : String) :
    List ConfigToken → themeCommandState → Except String themeCommandState
  | optionToken :: valueToken :: rest, st =>
    match themeOptionSetter optionToken.value with
    | none =>
      Except.error (generateConfigError inputSource optionToken
        ("Invalid option for theme command: \"" ++ optionToken.value ++ "\""))
    | some setter => themeGo inputSource rest (setter st valueToken)
  | _, st => Except.ok st

/-- themeCommandConstructor: builds a ThemeCommand from option/value pairs. -/
def themeCommandConstructor (inputSource : String) (commandToken : ConfigToken)
    (tokens : List ConfigToken) : Except String ConfigCommand :=
  match commandToken, themeGo inputSource tokens {} with
  | _, Except.ok st =>
    Except.ok (ConfigCommand.ThemeCommand st.name st.component st.bgcolor st.fgcolor)
  | _, Except.error e => Except.error e

/-- mapCommandConstructor: positional assignment of the three matched words. -/
def mapCommandConstructor (inputSource : String) (commandToken : ConfigToken)
    (tokens : List ConfigToken) : Except String ConfigCommand :=
  match inputSource, commandToken, tokens with
  | _, _, view :: fromTok :: toTok :: _ =>
    Except.ok (ConfigCommand.MapCommand view fromTok toTok)
  | _, _, _ => Except.error "runtime error: index out of range"

/-- unmapCommandConstructor: positional assignment of the two matched words. -/
def unmapCommandConstructor (inputSource : String) (commandToken : ConfigToken)
    (tokens : List ConfigToken) : Except String ConfigCommand :=
  match inputSource, commandToken, tokens with
  | _, _, view :: fromTok :: _ =>
    Except.ok (ConfigCommand.UnmapCommand view fromTok)
  | _, _, _ => Except.error "runtime error: index out of range"

/-- quitCommandConstructor: no payload. -/
def quitCommandConstructor (inputSource : String) (commandToken : ConfigToken)
    (tokens : List ConfigToken) : Except String ConfigCommand :=
  match inputSource, commandToken, tokens with
  | _, _, _ => Except.ok ConfigCommand.QuitCommand

/-- newTabCommandConstructor: the matched word is the tab name. -/
def newTabCommandConstructor (inputSource : String) (commandToken : ConfigToken)
    (tokens : List ConfigToken) : Except String ConfigCommand :=
  match inputSource, commandToken, tokens with
  | _, _, tabName :: _ => Except.ok (ConfigCommand.NewTabCommand tabName)
  | _, _, _ => Except.error "runtime error: index out of range"

/-- newRemoveTabCommandConstructor: no payload. -/
def newRemoveTabCommandConstructor (inputSource : String)
    (commandToken : ConfigToken) (tokens : List ConfigToken) :
    Except String ConfigCommand :=
  match inputSource, commandToken, tokens with
  | _, _, _ => Except.ok ConfigCommand.RemoveTabCommand

/-- addViewCommandConstructor: requires at least one accumulated token; the
first is the view, the rest the args. -/
def addViewCommandConstructor (inputSource : String) (commandToken : ConfigToken)
    (tokens : List ConfigToken) : Except String ConfigCommand :=
  match tokens with
  | [] =>
    Except.error (generateConfigError inputSource commandToken
      ("Invalid " ++ commandToken.value ++ " command. Usage: " ++
        commandToken.value ++ " [VIEW] [ARGS...]"))
  | view :: args => Except.ok (ConfigCommand.AddViewCommand view args)

/-- splitViewCommandConstructor: requires at least one accumulated token and
derives the orientation from the command name itself. -/
def splitViewCommandConstructor (inputSource : String)
    (commandToken : ConfigToken) (tokens : List ConfigToken) :
    Except String ConfigCommand :=
  match tokens with
  | [] =>
    Except.error (generateConfigError inputSource commandToken
      ("Invalid " ++ commandToken.value ++ " command. Usage: " ++
        commandToken.value ++ " [VIEW] [ARGS...]"))
  | view :: args =>
    if commandToken.value = splitCommand then
      Except.ok (ConfigCommand.SplitViewCommand ContainerOrientation.CoDynamic view args)
    else if commandToken.value = hsplitCommand then
      Except.ok (ConfigCommand.SplitViewCommand ContainerOrientation.CoHorizontal view args)
    else if commandToken.value = vsplitCommand then
      Except.ok (ConfigCommand.SplitViewCommand ContainerOrientation.CoVertical view args)
    else
      Except.error (generateConfigError inputSource commandToken
        ("Unrecognised command: " ++ commandToken.value))

/-- A grammar descriptor: the expected token kinds of a fixed grammar, the
variable-arity marker, and the construct function building the command
value (the constructor field of commandDescriptor). -/
structure commandDescriptor where
  tokenTypes : List ConfigTokenType
  varArgs : Bool
  construct : String → ConfigToken → List ConfigToken → Except String ConfigCommand

def setCommandDescriptor : commandDescriptor :=
  { tokenTypes := [ConfigTokenType.CtkWord, ConfigTokenType.CtkWord],
    varArgs := false, construct := setCommandConstructor }

def themeCommandDescriptor : commandDescriptor :=
  { tokenTypes := [ConfigTokenType.CtkOption, ConfigTokenType.CtkWord,
      ConfigTokenType.CtkOption, ConfigTokenType.CtkWord,
      ConfigTokenType.CtkOption, ConfigTokenType.CtkWord,
      ConfigTokenType.CtkOption, ConfigTokenType.CtkWord],
    varArgs := false, construct := themeCommandConstructor }

def mapCommandDescriptor : commandDescriptor :=
  { tokenTypes := [ConfigTokenType.CtkWord, ConfigTokenType.CtkWord,
      ConfigTokenType.CtkWord],
    varArgs := false, construct := mapCommandConstructor }

def unmapCommandDescriptor : commandDescriptor :=
  { tokenTypes := [ConfigTokenType.CtkWord, ConfigTokenType.CtkWord],
    varArgs := false, construct := unmapCommandConstructor }

def quitCommandDescriptor : commandDescriptor :=
  { tokenTypes := [], varArgs := false, construct := quitCommandConstructor }

def addtabCommandDescriptor : commandDescriptor :=
  { tokenTypes := [ConfigTokenType.CtkWord], varArgs := false,
    construct := newTabCommandConstructor }

def removetabCommandDescriptor : commandDescriptor :=
  { tokenTypes := [], varArgs := false,
    construct := newRemoveTabCommandConstructor }

def addviewCommandDescriptor : commandDescriptor :=
  { tokenTypes := [], varArgs := true, construct := addViewCommandConstructor }

def vsplitCommandDescriptor : commandDescriptor :=
  { tokenTypes := [], varArgs := true, construct := splitViewCommandConstructor }

def hsplitCommandDescriptor : commandDescriptor :=
  { tokenTypes := [], varArgs := true, construct := splitViewCommandConstructor }

def splitCommandDescriptor : commandDescriptor :=
  { tokenTypes := [], varArgs := true, construct := splitViewCommandConstructor }

/-- The commandDescriptors registry: an immutable map from command name to
its grammar descriptor. -/
def commandDescriptors (name : String) : Option commandDescriptor :=
  if name = setCommand then some setCommandDescriptor
  else if name = themeCommand then some themeCommandDescriptor
  else if name = mapCommand then some mapCommandDescriptor
  else if name = unmapCommand then some unmapCommandDescriptor
  else if name = quitCommand then some quitCommandDescriptor
  else if name = addtabCommand then some addtabCommandDescriptor
  else if name = removetabCommand then some removetabCommandDescriptor
  else if name = addviewCommand then some addviewCommandDescriptor
  else if name = vsplitCommand then some vsplitCommandDescriptor
  else if name = hsplitCommand then some hsplitCommandDescriptor
  else if name = splitCommand then some splitCommandDescriptor
  else none

/-- Modelled from the spec: ConfigTokenName lives in the scanner file, which
is not among the sources; it maps a token kind to the display name used in
grammar-mismatch messages ("mismatch error names both the expected and
actual kind").  No claim depends on the exact names. -/
def ConfigTokenName : ConfigTokenType → String
  | ConfigTokenType.CtkInvalid => "Invalid"
  | ConfigTokenType.CtkWord => "Word"
  | ConfigTokenType.CtkOption => "Option"
  | ConfigTokenType.CtkWhiteSpace => "White Space"
  | ConfigTokenType.CtkComment => "Comment"
  | ConfigTokenType.CtkTerminator => "Terminator"
  | ConfigTokenType.CtkEOF => "EOF"

/-- The parser: its scanner (remaining scan results) and the configured
source label. -/
structure ConfigParser where
  scanner : List ScanResult
  inputSource : String
deriving DecidableEq, Repr

/-- Token the scanner keeps producing once its input list is exhausted,
modelling a scanner whose input stream has ended. -/
def eofToken : ConfigToken :=
  { tokenType := ConfigTokenType.CtkEOF, value := "",
    startPos := { line := 0, col := 0 }, err := none }

/-- ConfigParser.scan: read from the scanner, skipping whitespace and
comment tokens, until a significant token or a scanner error is obtained.
Returns the scan outcome and the remaining scanner state. -/
def pscan : List ScanResult → Except String ConfigToken × List ScanResult
  | [] => (Except.ok eofToken, [])
  | ScanResult.fail e :: rest => (Except.error e, rest)
  | ScanResult.ok t :: rest =>
    if t.tokenType = ConfigTokenType.CtkWhiteSpace ∨
        t.tokenType = ConfigTokenType.CtkComment then
      pscan rest
    else
      (Except.ok t, rest)

theorem pscan_sndLe (s : List ScanResult) : (pscan s).2.length ≤ s.length := by
  induction s with
  | nil => simp [pscan]
  | cons r rest ih =>
    cases r with
    | fail e => simp [pscan]
    | ok t =>
      by_cases hws : t.tokenType = ConfigTokenType.CtkWhiteSpace ∨
          t.tokenType = ConfigTokenType.CtkComment
      · simp only [pscan, if_pos hws]
        exact Nat.le_succ_of_le ih
      · simp [pscan, if_neg hws]

theorem pscan_lt_of_ok {s rest : List ScanResult} {t : ConfigToken}
    (h : pscan s = (Except.ok t, rest))
    (ht : t.tokenType ≠ ConfigTokenType.CtkEOF) : rest.length < s.length := by
  induction s generalizing rest with
  | nil =>
    simp only [pscan, Prod.mk.injEq, Except.ok.injEq] at h
    exact absurd (h.1 ▸ rfl) ht
  | cons r s' ih =>
    cases r with
    | fail e => simp [pscan] at h
    | ok t' =>
      by_cases hws : t'.tokenType = ConfigTokenType.CtkWhiteSpace ∨
          t'.tokenType = ConfigTokenType.CtkComment
      · simp only [pscan, if_pos hws] at h
        exact Nat.lt_succ_of_lt (ih h)
      · simp only [pscan, if_neg hws, Prod.mk.injEq, Except.ok.injEq] at h
        simp [← h.2]

/-- ConfigParser.discardTokensUntilNextCommand: read and discard tokens
until a terminator, an EOF or a scanner error is observed; scanner errors
are swallowed. -/
def discardTokensUntilNextCommand (s : List ScanResult) : List ScanResult :=
  match h : pscan s with
  | (Except.error _, rest) => rest
  | (Except.ok token, rest) =>
    if hb : token.tokenType = ConfigTokenType.CtkTerminator ∨
        token.tokenType = ConfigTokenType.CtkEOF then rest
    else discardTokensUntilNextCommand rest
termination_by s.length
decreasing_by
  exact pscan_lt_of_ok h (fun he => hb (Or.inr he))

/-- The fixed-arity argument loop of ConfigParser.parseCommand: one
iteration per expected token kind, verifying scanner success, absence of an
embedded token error, non-EOF and the exact expected kind, and accumulating
matched tokens; on full match the descriptor's construct function runs. -/
def parseFixedArgs (src : String) (cd : commandDescriptor)
    (commandToken : ConfigToken) :
    List ConfigTokenType → List ConfigToken → List ScanResult →
    Option ConfigCommand × Bool × Option String × List ScanResult
  | [], acc, s =>
    match cd.construct src commandToken acc with
    | Except.ok c => (some c, false, none, s)
    | Except.error e => (none, false, some e, s)
  | expected :: kinds, acc, s =>
    match pscan s with
    | (Except.error e, rest) => (none, false, some e, rest)
    | (Except.ok token, rest) =>
      if token.err ≠ none then
        (none, false, some (generateConfigError src token "Syntax Error"), rest)
      else if token.tokenType = ConfigTokenType.CtkEOF then
        (none, true, some (generateConfigError src token "Unexpected EOF"), rest)
      else if token.tokenType ≠ expected then
        (none, false,
          some (generateConfigError src token
            ("Expected " ++ ConfigTokenName expected ++ " but got " ++
              ConfigTokenName token.tokenType ++ ": \"" ++ token.value ++ "\"")),
          rest)
      else
        parseFixedArgs src cd commandToken kinds (acc ++ [token]) rest

/-- The accumulation loop of ConfigParser.parseVarArgsCommand: read tokens,
failing on scanner errors and embedded token errors, stopping at EOF or a
terminator, accumulating everything else, then run the descriptor's
construct function on the accumulated tokens. -/
def parseVarArgsGo (src : String) (cd : commandDescriptor)
    (commandToken : ConfigToken) (acc : List ConfigToken)
    (s : List ScanResult) :
    Option ConfigCommand × Bool × Option String × List ScanResult :=
  match h : pscan s with
  | (Except.error e, rest) => (none, false, some e, rest)
  | (Except.ok token, rest) =>
    if token.err ≠ none then
      (none, false, some (generateConfigError src token "Syntax Error"), rest)
    else if hb : token.tokenType = ConfigTokenType.CtkEOF ∨
        token.tokenType = ConfigTokenType.CtkTerminator then
      match cd.construct src commandToken acc with
      | Except.ok c => (some c, false, none, rest)
      | Except.error e => (none, false, some e, rest)
    else
      parseVarArgsGo src cd commandToken (acc ++ [token]) rest
termination_by s.length
decreasing_by
  exact pscan_lt_of_ok h (fun he => hb (Or.inl he))

/-- ConfigParser.parseVarArgsCommand starts the accumulation loop with an
empty token list. -/
def parseVarArgsCommand (src : String) (cd : commandDescriptor)
    (commandToken : ConfigToken) (s : List ScanResult) :
    Option ConfigCommand × Bool × Option String × List ScanResult :=
  parseVarArgsGo src cd commandToken [] s

/-- ConfigParser.parseCommand: look up the descriptor of the command name,
then run the variable-arity or the fixed-arity grammar. -/
def parseCommand (src : String) (commandToken : ConfigToken)
    (s : List ScanResult) :
    Option ConfigCommand × Bool × Option String × List ScanResult :=
  match commandDescriptors commandToken.value with
  | none =>
    (none, false,
      some (generateConfigError src commandToken
        ("Invalid command \"" ++ commandToken.value ++ "\"")), s)
  | some cd =>
    if cd.varArgs then parseVarArgsCommand src cd commandToken s
    else parseFixedArgs src cd commandToken cd.tokenTypes [] s

/-- The triple returned by ConfigParser.Parse: the parsed command (if any),
the end-of-input flag, and the error (if any). -/
structure ParseResult where
  command : Option ConfigCommand
  eof : Bool
  err : Option String
deriving DecidableEq, Repr

/-- Models the code after the scan loop in ConfigParser.Parse: if an error
was produced, discard tokens until the next command boundary, then return. -/
def parseReturn (res : Option ConfigCommand × Bool × Option String × List ScanResult) :
    ParseResult × List ScanResult :=
  match res with
  | (cmd, eofFlag, some e, s) =>
    (⟨cmd, eofFlag, some e⟩, discardTokensUntilNextCommand s)
  | (cmd, eofFlag, none, s) => (⟨cmd, eofFlag, none⟩, s)

/-- The scan-and-dispatch loop of ConfigParser.Parse.  A scanner failure
while reading the leading token returns directly from inside the loop (the
early return in the Go code), bypassing the discard step; every other
outcome falls through to parseReturn.  A terminator restarts the loop. -/
def parseLoopStep (src : String) (s : List ScanResult) :
    ParseResult × List ScanResult :=
  match h : pscan s with
  | (Except.error e, rest) => (⟨none, false, some e⟩, rest)
  | (Except.ok token, rest) =>
    match htok : token.tokenType with
    | ConfigTokenType.CtkWord => parseReturn (parseCommand src token rest)
    | ConfigTokenType.CtkTerminator => parseLoopStep src rest
    | ConfigTokenType.CtkEOF => parseReturn (none, true, none, rest)
    | ConfigTokenType.CtkOption =>
      parseReturn (none, false,
        some (generateConfigError src token
          ("Unexpected Option \"" ++ token.value ++ "\"")), rest)
    | ConfigTokenType.CtkInvalid =>
      parseReturn (none, false,
        some (generateConfigError src token "Syntax Error"), rest)
    | ConfigTokenType.CtkWhiteSpace =>
      parseReturn (none, false,
        some (generateConfigError src token
          ("Unexpected token \"" ++ token.value ++ "\"")), rest)
    | ConfigTokenType.CtkComment =>
      parseReturn (none, false,
        some (generateConfigError src token
          ("Unexpected token \"" ++ token.value ++ "\"")), rest)
termination_by s.length
decreasing_by
  exact pscan_lt_of_ok h (by simp [htok])

/-- ConfigParser.Parse: returns the next command from the input stream
together with the updated parser. -/
def ConfigParser.Parse (parser : ConfigParser) : ParseResult × ConfigParser :=
  match parseLoopStep parser.inputSource parser.scanner with
  | (res, s) => (res, { scanner := s, inputSource := parser.inputSource })

/-- A token that the fixed-arity loop accepts for the expected kind: right
kind, no embedded error, and not one of the kinds the scan loop skips or
the argument loop rejects. -/
def cleanMatch (t : ConfigToken) (k : ConfigTokenType) : Bool :=
  t.tokenType == k && t.err == none &&
    !(t.tokenType == ConfigTokenType.CtkWhiteSpace) &&
    !(t.tokenType == ConfigTokenType.CtkComment) &&
    !(t.tokenType == ConfigTokenType.CtkEOF)

/-- Pointwise cleanMatch of a token list against a kind list of the same
length. -/
def listCleanMatch : List ConfigToken → List ConfigTokenType → Bool
  | [], [] => true
  | t :: ts, k :: ks => cleanMatch t k && listCleanMatch ts ks
  | _, _ => false

/-- A token that the variable-arity loop accumulates: no embedded error and
not one of the kinds that are skipped or that stop the loop. -/
def cleanVarArg (t : ConfigToken) : Bool :=
  t.err == none &&
    !(t.tokenType == ConfigTokenType.CtkWhiteSpace) &&
    !(t.tokenType == ConfigTokenType.CtkComment) &&
    !(t.tokenType == ConfigTokenType.CtkEOF) &&
    !(t.tokenType == ConfigTokenType.CtkTerminator)

/-- Every scan result in the list is a token, never a raw scanner failure. -/
def allOk (s : List ScanResult) : Bool :=
  s.all fun r => match r with
    | ScanResult.ok _ => true
    | ScanResult.fail _ => false

/-- Convenience builder for a concrete token at position 1:1 with no
embedded error. -/
def mkTok (ty : ConfigTokenType) (v : String) : ConfigToken :=
  { tokenType := ty, value := v, startPos := { line := 1, col := 1 }, err := none }

def wordTok (v : String) : ConfigToken := mkTok ConfigTokenType.CtkWord v

def optionTok (v : String) : ConfigToken := mkTok ConfigTokenType.CtkOption v

def termTok : ConfigToken := mkTok ConfigTokenType.CtkTerminator "\n"

def eofInputTok : ConfigToken := mkTok ConfigTokenType.CtkEOF ""

/-- Overriding update on optional fields: a supplied value wins, otherwise
the previous value is kept. -/
def optOverride (new old : Option ConfigToken) : Option ConfigToken :=
  match new with
  | some v => some v
  | none => old

/-- Value of the last (option, value) pair of the token list whose option
text equals opt, if any: later pairs override earlier ones.  A trailing
unpaired token is ignored. -/
def lastPairValue (opt : String) : List ConfigToken → Option ConfigToken
  | o :: v :: rest =>
    optOverride (lastPairValue opt rest) (if o.value = opt then some v else none)
  | _ => none

/-- The option strings recognized by the theme command. -/
def isThemeOption (s : String) : Bool :=
  s == "--name" || s == "--component" || s == "--bgcolor" || s == "--fgcolor"

/-- Every (option, value) pair of the token list carries a recognized theme
option. -/
def themeAllRecognized : List ConfigToken → Bool
  | o :: _ :: rest => isThemeOption o.value && themeAllRecognized rest
  | _ => true

theorem pscan_cons_sig (t : ConfigToken) (s : List ScanResult)
    (h1 : t.tokenType ≠ ConfigTokenType.CtkWhiteSpace)
    (h2 : t.tokenType ≠ ConfigTokenType.CtkComment) :
    pscan (ScanResult.ok t :: s) = (Except.ok t, s) := by
  simp [pscan, h1, h2]

theorem pscan_cons_fail (e : String) (s : List ScanResult) :
    pscan (ScanResult.fail e :: s) = (Except.error e, s) := rfl

theorem pscan_nil : pscan [] = (Except.ok eofToken, []) := rfl

theorem parseReturn_none (cmd : Option ConfigCommand) (b : Bool)
    (s : List ScanResult) : parseReturn (cmd, b, none, s) = (⟨cmd, b, none⟩, s) := rfl

theorem parseReturn_some (cmd : Option ConfigCommand) (b : Bool) (e : String)
    (s : List ScanResult) :
    parseReturn (cmd, b, some e, s) =
      (⟨cmd, b, some e⟩, discardTokensUntilNextCommand s) := rfl

theorem parseReturn_err (r : Option ConfigCommand × Bool × Option String × List ScanResult) :
    (parseReturn r).1.err = r.2.2.1 := by
  obtain ⟨c, b, oe, s⟩ := r
  cases oe <;> rfl

theorem discard_nil : discardTokensUntilNextCommand [] = [] := by
  simp [discardTokensUntilNextCommand, pscan, eofToken]

theorem discard_cons_fail (e : String) (s : List ScanResult) :
    discardTokensUntilNextCommand (ScanResult.fail e :: s) = s := by
  simp [discardTokensUntilNextCommand, pscan]

theorem discard_eq (s : List ScanResult) :
    discardTokensUntilNextCommand s =
      match pscan s with
      | (Except.error _, rest) => rest
      | (Except.ok token, rest) =>
        if token.tokenType = ConfigTokenType.CtkTerminator ∨
            token.tokenType = ConfigTokenType.CtkEOF then rest
        else discardTokensUntilNextCommand rest := by
  rw [discardTokensUntilNextCommand]
  split
  · rename_i e rest heq
    rw [heq]
  · rename_i token rest heq
    rw [heq]
    simp only [dite_eq_ite]

theorem discard_cons_boundary (t : ConfigToken) (s : List ScanResult)
    (h : t.tokenType = ConfigTokenType.CtkTerminator ∨
      t.tokenType = ConfigTokenType.CtkEOF) :
    discardTokensUntilNextCommand (ScanResult.ok t :: s) = s := by
  have h1 : t.tokenType ≠ ConfigTokenType.CtkWhiteSpace := by
    rcases h with h | h <;> simp [h]
  have h2 : t.tokenType ≠ ConfigTokenType.CtkComment := by
    rcases h with h | h <;> simp [h]
  rw [discard_eq, pscan_cons_sig t s h1 h2]
  simp [h]

theorem discard_cons_skip (t : ConfigToken) (s : List ScanResult)
    (h1 : t.tokenType ≠ ConfigTokenType.CtkTerminator)
    (h2 : t.tokenType ≠ ConfigTokenType.CtkEOF) :
    discardTokensUntilNextCommand (ScanResult.ok t :: s) =
      discardTokensUntilNextCommand s := by
  by_cases hws : t.tokenType = ConfigTokenType.CtkWhiteSpace ∨
      t.tokenType = ConfigTokenType.CtkComment
  · have hp : pscan (ScanResult.ok t :: s) = pscan s := by
      simp [pscan, hws]
    rw [discard_eq, hp, ← discard_eq]
  · push_neg at hws
    rw [discard_eq, pscan_cons_sig t s hws.1 hws.2]
    simp [h1, h2]

theorem parseVarArgsGo_eq (src : String) (cd : commandDescriptor)
    (ct : ConfigToken) (acc : List ConfigToken) (s : List ScanResult) :
    parseVarArgsGo src cd ct acc s =
      match pscan s with
      | (Except.error e, rest) => (none, false, some e, rest)
      | (Except.ok token, rest) =>
        if token.err ≠ none then
          (none, false, some (generateConfigError src token "Syntax Error"), rest)
        else if token.tokenType = ConfigTokenType.CtkEOF ∨
            token.tokenType = ConfigTokenType.CtkTerminator then
          match cd.construct src ct acc with
          | Except.ok c => (some c, false, none, rest)
          | Except.error e => (none, false, some e, rest)
        else parseVarArgsGo src cd ct (acc ++ [token]) rest := by
  rw [parseVarArgsGo]
  split
  · rename_i e rest heq
    rw [heq]
  · rename_i token rest heq
    rw [heq]
    simp only [dite_eq_ite]

theorem parseLoopStep_eq (src : String) (s : List ScanResult) :
    parseLoopStep src s =
      match pscan s with
      | (Except.error e, rest) => (⟨none, false, some e⟩, rest)
      | (Except.ok token, rest) =>
        match token.tokenType with
        | ConfigTokenType.CtkWord => parseReturn (parseCommand src token rest)
        | ConfigTokenType.CtkTerminator => parseLoopStep src rest
        | ConfigTokenType.CtkEOF => parseReturn (none, true, none, rest)
        | ConfigTokenType.CtkOption =>
          parseReturn (none, false,
            some (generateConfigError src token
              ("Unexpected Option \"" ++ token.value ++ "\"")), rest)
        | ConfigTokenType.CtkInvalid =>
          parseReturn (none, false,
            some (generateConfigError src token "Syntax Error"), rest)
        | ConfigTokenType.CtkWhiteSpace =>
          parseReturn (none, false,
            some (generateConfigError src token
              ("Unexpected token \"" ++ token.value ++ "\"")), rest)
        | ConfigTokenType.CtkComment =>
          parseReturn (none, false,
            some (generateConfigError src token
              ("Unexpected token \"" ++ token.value ++ "\"")), rest) := by
  rw [parseLoopStep]
  split
  · rename_i e rest heq
    simp only [heq]
  · rename_i token rest heq
    split <;> (rename_i htok; simp only [heq, htok])

theorem cleanMatch_spec {t : ConfigToken} {k : ConfigTokenType}
    (h : cleanMatch t k = true) :
    t.tokenType = k ∧ t.err = none ∧
      t.tokenType ≠ ConfigTokenType.CtkWhiteSpace ∧
      t.tokenType ≠ ConfigTokenType.CtkComment ∧
      t.tokenType ≠ ConfigTokenType.CtkEOF := by
  simp only [cleanMatch, Bool.and_eq_true, beq_iff_eq, Bool.not_eq_true',
    beq_eq_false_iff_ne, ne_eq] at h
  exact ⟨h.1.1.1.1, h.1.1.1.2, h.1.1.2, h.1.2, h.2⟩

theorem cleanVarArg_spec {t : ConfigToken} (h : cleanVarArg t = true) :
    t.err = none ∧
      t.tokenType ≠ ConfigTokenType.CtkWhiteSpace ∧
      t.tokenType ≠ ConfigTokenType.CtkComment ∧
      t.tokenType ≠ ConfigTokenType.CtkEOF ∧
      t.tokenType ≠ ConfigTokenType.CtkTerminator := by
  simp only [cleanVarArg, Bool.and_eq_true, beq_iff_eq, Bool.not_eq_true',
    beq_eq_false_iff_ne, ne_eq] at h
  exact ⟨h.1.1.1.1, h.1.1.1.2, h.1.1.2, h.1.2, h.2⟩

theorem parseFixedArgs_consume (src : String) (cd : commandDescriptor)
    (ct : ConfigToken) :
    ∀ (args : List ConfigToken) (kinds : List ConfigTokenType)
      (acc : List ConfigToken) (s : List ScanResult),
      listCleanMatch args (kinds.take args.length) = true →
      args.length ≤ kinds.length →
      parseFixedArgs src cd ct kinds acc (args.map ScanResult.ok ++ s) =
        parseFixedArgs src cd ct (kinds.drop args.length) (acc ++ args) s := by
  intro args
  induction args with
  | nil =>
    intro kinds acc s _ _
    simp
  | cons a as ih =>
    intro kinds acc s h hl
    cases kinds with
    | nil => simp at hl
    | cons k ks =>
      simp only [List.length_cons, List.take_succ_cons, listCleanMatch,
        Bool.and_eq_true] at h
      obtain ⟨hm, hrest⟩ := h
      obtain ⟨htk, herr, hws, hcm, heof⟩ := cleanMatch_spec hm
      have hkeof : k ≠ ConfigTokenType.CtkEOF := htk ▸ heof
      simp only [List.map_cons, List.cons_append]
      rw [parseFixedArgs, pscan_cons_sig a _ hws hcm]
      simp only [herr, htk, hkeof, ne_eq, not_true_eq_false, not_false_eq_true,
        if_true, if_false, ite_false, ite_true]
      rw [ih ks (acc ++ [a]) s hrest (Nat.le_of_succ_le_succ hl)]
      simp

theorem parseVarArgsGo_consume (src : String) (cd : commandDescriptor)
    (ct : ConfigToken) :
    ∀ (args : List ConfigToken) (acc : List ConfigToken) (s : List ScanResult),
      args.all cleanVarArg = true →
      parseVarArgsGo src cd ct acc (args.map ScanResult.ok ++ s) =
        parseVarArgsGo src cd ct (acc ++ args) s := by
  intro args
  induction args with
  | nil =>
    intro acc s _
    simp
  | cons a as ih =>
    intro acc s h
    simp only [List.all_cons, Bool.and_eq_true] at h
    obtain ⟨ha, hrest⟩ := h
    obtain ⟨herr, hws, hcm, heof, hterm⟩ := cleanVarArg_spec ha
    simp only [List.map_cons, List.cons_append]
    rw [parseVarArgsGo_eq, pscan_cons_sig a _ hws hcm]
    simp only [herr, heof, hterm, ne_eq, not_true_eq_false, not_false_eq_true,
      if_true, if_false, ite_false, ite_true, or_self, false_or, or_false]
    rw [ih (acc ++ [a]) s hrest]
    simp

theorem parseVarArgsGo_break (src : String) (cd : commandDescriptor)
    (ct : ConfigToken) (acc : List ConfigToken) (t : ConfigToken)
    (s : List ScanResult)
    (hb : t.tokenType = ConfigTokenType.CtkEOF ∨
      t.tokenType = ConfigTokenType.CtkTerminator)
    (herr : t.err = none) :
    parseVarArgsGo src cd ct acc (ScanResult.ok t :: s) =
      match cd.construct src ct acc with
      | Except.ok c => (some c, false, none, s)
      | Except.error e => (none, false, some e, s) := by
  have h1 : t.tokenType ≠ ConfigTokenType.CtkWhiteSpace := by
    rcases hb with h | h <;> simp [h]
  have h2 : t.tokenType ≠ ConfigTokenType.CtkComment := by
    rcases hb with h | h <;> simp [h]
  rw [parseVarArgsGo_eq, pscan_cons_sig t s h1 h2]
  simp [herr, hb]

theorem parseVarArgsGo_fail (src : String) (cd : commandDescriptor)
    (ct : ConfigToken) (acc : List ConfigToken) (e : String)
    (s : List ScanResult) :
    parseVarArgsGo src cd ct acc (ScanResult.fail e :: s) =
      (none, false, some e, s) := by
  rw [parseVarArgsGo_eq, pscan_cons_fail]

theorem parseLoopStep_cons_fail (src : String) (e : String) (s : List ScanResult) :
    parseLoopStep src (ScanResult.fail e :: s) = (⟨none, false, some e⟩, s) := by
  rw [parseLoopStep_eq, pscan_cons_fail]

theorem parseLoopStep_cons_word (src : String) (t : ConfigToken)
    (s : List ScanResult) (ht : t.tokenType = ConfigTokenType.CtkWord) :
    parseLoopStep src (ScanResult.ok t :: s) =
      parseReturn (parseCommand src t s) := by
  rw [parseLoopStep_eq, pscan_cons_sig t s (by simp [ht]) (by simp [ht])]
  simp only [ht]

theorem parseLoopStep_cons_term (src : String) (t : ConfigToken)
    (s : List ScanResult) (ht : t.tokenType = ConfigTokenType.CtkTerminator) :
    parseLoopStep src (ScanResult.ok t :: s) = parseLoopStep src s := by
  rw [parseLoopStep_eq, pscan_cons_sig t s (by simp [ht]) (by simp [ht])]
  simp only [ht]

theorem parseLoopStep_cons_eof (src : String) (t : ConfigToken)
    (s : List ScanResult) (ht : t.tokenType = ConfigTokenType.CtkEOF) :
    parseLoopStep src (ScanResult.ok t :: s) = (⟨none, true, none⟩, s) := by
  rw [parseLoopStep_eq, pscan_cons_sig t s (by simp [ht]) (by simp [ht])]
  simp only [ht]
  rfl

theorem parseLoopStep_cons_invalid (src : String) (t : ConfigToken)
    (s : List ScanResult) (ht : t.tokenType = ConfigTokenType.CtkInvalid) :
    parseLoopStep src (ScanResult.ok t :: s) =
      (⟨none, false, some (generateConfigError src t "Syntax Error")⟩,
        discardTokensUntilNextCommand s) := by
  rw [parseLoopStep_eq, pscan_cons_sig t s (by simp [ht]) (by simp [ht])]
  simp only [ht]
  rfl

theorem parseLoopStep_cons_option (src : String) (t : ConfigToken)
    (s : List ScanResult) (ht : t.tokenType = ConfigTokenType.CtkOption) :
    parseLoopStep src (ScanResult.ok t :: s) =
      (⟨none, false,
        some (generateConfigError src t
          ("Unexpected Option \"" ++ t.value ++ "\""))⟩,
        discardTokensUntilNextCommand s) := by
  rw [parseLoopStep_eq, pscan_cons_sig t s (by simp [ht]) (by simp [ht])]
  simp only [ht]
  rfl

theorem parseLoopStep_nil (src : String) :
    parseLoopStep src [] = (⟨none, true, none⟩, []) := by
  rw [parseLoopStep_eq]
  rfl

theorem Parse_eq (src : String) (s : List ScanResult) :
    ConfigParser.Parse ⟨s, src⟩ =
      ((parseLoopStep src s).1, ⟨(parseLoopStep src s).2, src⟩) := by
  rcases h : parseLoopStep src s with ⟨res, s2⟩
  simp [ConfigParser.Parse, h]

/-- A token that neither stops the discard loop nor is skipped as
insignificant in a way that matters: anything but a terminator or EOF. -/
def notBoundaryTok (t : ConfigToken) : Bool :=
  !(t.tokenType == ConfigTokenType.CtkTerminator) &&
    !(t.tokenType == ConfigTokenType.CtkEOF)

theorem discard_append (junk : List ConfigToken) (s : List ScanResult)
    (h : junk.all notBoundaryTok = true) :
    discardTokensUntilNextCommand (junk.map ScanResult.ok ++ s) =
      discardTokensUntilNextCommand s := by
  induction junk with
  | nil => simp
  | cons t ts ih =>
    simp only [List.all_cons, Bool.and_eq_true] at h
    obtain ⟨ht, hts⟩ := h
    simp only [notBoundaryTok, Bool.and_eq_true, Bool.not_eq_true',
      beq_eq_false_iff_ne, ne_eq] at ht
    simp only [List.map_cons, List.cons_append]
    rw [discard_cons_skip t _ ht.1 ht.2, ih hts]

theorem listCleanMatch_length :
    ∀ {args : List ConfigToken} {kinds : List ConfigTokenType},
      listCleanMatch args kinds = true → args.length = kinds.length := by
  intro args
  induction args with
  | nil =>
    intro kinds h
    cases kinds with
    | nil => rfl
    | cons k ks => simp [listCleanMatch] at h
  | cons a as ih =>
    intro kinds h
    cases kinds with
    | nil => simp [listCleanMatch] at h
    | cons k ks =>
      simp only [listCleanMatch, Bool.and_eq_true] at h
      simp [ih h.2]

theorem parseCommand_unknown (src : String) (t : ConfigToken)
    (s : List ScanResult) (h : commandDescriptors t.value = none) :
    parseCommand src t s =
      (none, false,
        some (generateConfigError src t
          ("Invalid command \"" ++ t.value ++ "\"")), s) := by
  simp [parseCommand, h]

theorem Parse_fixed_ok (src : String) (c : ConfigToken) (cd : commandDescriptor)
    (args : List ConfigToken) (rest : List ScanResult) (cmd : ConfigCommand)
    (hc : c.tokenType = ConfigTokenType.CtkWord)
    (hlook : commandDescriptors c.value = some cd)
    (hvar : cd.varArgs = false)
    (hmatch : listCleanMatch args cd.tokenTypes = true)
    (hcons : cd.construct src c args = Except.ok cmd) :
    ConfigParser.Parse ⟨ScanResult.ok c :: (args.map ScanResult.ok ++ rest), src⟩ =
      (⟨some cmd, false, none⟩, ⟨rest, src⟩) := by
  have hlen : args.length = cd.tokenTypes.length := listCleanMatch_length hmatch
  have htake : cd.tokenTypes.take args.length = cd.tokenTypes := by
    rw [hlen, List.take_length]
  rw [Parse_eq, parseLoopStep_cons_word src c _ hc]
  simp only [parseCommand, hlook, hvar, if_false, Bool.false_eq_true, ite_false]
  rw [parseFixedArgs_consume src cd c args cd.tokenTypes [] rest
    (by rw [htake]; exact hmatch) (le_of_eq hlen)]
  rw [hlen, List.drop_length]
  simp only [parseFixedArgs, List.nil_append, hcons]
  rfl

theorem Parse_fixed_err (src : String) (c : ConfigToken) (cd : commandDescriptor)
    (args : List ConfigToken) (rest : List ScanResult) (e : String)
    (hc : c.tokenType = ConfigTokenType.CtkWord)
    (hlook : commandDescriptors c.value = some cd)
    (hvar : cd.varArgs = false)
    (hmatch : listCleanMatch args cd.tokenTypes = true)
    (hcons : cd.construct src c args = Except.error e) :
    ConfigParser.Parse ⟨ScanResult.ok c :: (args.map ScanResult.ok ++ rest), src⟩ =
      (⟨none, false, some e⟩, ⟨discardTokensUntilNextCommand rest, src⟩) := by
  have hlen : args.length = cd.tokenTypes.length := listCleanMatch_length hmatch
  have htake : cd.tokenTypes.take args.length = cd.tokenTypes := by
    rw [hlen, List.take_length]
  rw [Parse_eq, parseLoopStep_cons_word src c _ hc]
  simp only [parseCommand, hlook, hvar, if_false, Bool.false_eq_true, ite_false]
  rw [parseFixedArgs_consume src cd c args cd.tokenTypes [] rest
    (by rw [htake]; exact hmatch) (le_of_eq hlen)]
  rw [hlen, List.drop_length]
  simp only [parseFixedArgs, List.nil_append, hcons]
  rfl

theorem Parse_var_ok (src : String) (c : ConfigToken) (cd : commandDescriptor)
    (args : List ConfigToken) (bTok : ConfigToken) (rest : List ScanResult)
    (cmd : ConfigCommand)
    (hc : c.tokenType = ConfigTokenType.CtkWord)
    (hlook : commandDescriptors c.value = some cd)
    (hvar : cd.varArgs = true)
    (hargs : args.all cleanVarArg = true)
    (hb : bTok.tokenType = ConfigTokenType.CtkEOF ∨
      bTok.tokenType = ConfigTokenType.CtkTerminator)
    (hberr : bTok.err = none)
    (hcons : cd.construct src c args = Except.ok cmd) :
    ConfigParser.Parse
      ⟨ScanResult.ok c :: (args.map ScanResult.ok ++ ScanResult.ok bTok :: rest), src⟩ =
      (⟨some cmd, false, none⟩, ⟨rest, src⟩) := by
  rw [Parse_eq, parseLoopStep_cons_word src c _ hc]
  simp only [parseCommand, hlook, hvar, if_true, parseVarArgsCommand]
  rw [parseVarArgsGo_consume src cd c args [] _ hargs]
  rw [parseVarArgsGo_break src cd c ([] ++ args) bTok rest hb hberr]
  simp only [List.nil_append, hcons]
  rfl

theorem Parse_var_err (src : String) (c : ConfigToken) (cd : commandDescriptor)
    (args : List ConfigToken) (bTok : ConfigToken) (rest : List ScanResult)
    (e : String)
    (hc : c.tokenType = ConfigTokenType.CtkWord)
    (hlook : commandDescriptors c.value = some cd)
    (hvar : cd.varArgs = true)
    (hargs : args.all cleanVarArg = true)
    (hb : bTok.tokenType = ConfigTokenType.CtkEOF ∨
      bTok.tokenType = ConfigTokenType.CtkTerminator)
    (hberr : bTok.err = none)
    (hcons : cd.construct src c args = Except.error e) :
    ConfigParser.Parse
      ⟨ScanResult.ok c :: (args.map ScanResult.ok ++ ScanResult.ok bTok :: rest), src⟩ =
      (⟨none, false, some e⟩, ⟨discardTokensUntilNextCommand rest, src⟩) := by
  rw [Parse_eq, parseLoopStep_cons_word src c _ hc]
  simp only [parseCommand, hlook, hvar, if_true, parseVarArgsCommand]
  rw [parseVarArgsGo_consume src cd c args [] _ hargs]
  rw [parseVarArgsGo_break src cd c ([] ++ args) bTok rest hb hberr]
  simp only [List.nil_append, hcons]
  rfl

theorem Parse_unknown (src : String) (c : ConfigToken) (rest : List ScanResult)
    (hc : c.tokenType = ConfigTokenType.CtkWord)
    (hlook : commandDescriptors c.value = none) :
    ConfigParser.Parse ⟨ScanResult.ok c :: rest, src⟩ =
      (⟨none, false,
        some (generateConfigError src c
          ("Invalid command \"" ++ c.value ++ "\""))⟩,
        ⟨discardTokensUntilNextCommand rest, src⟩) := by
  rw [Parse_eq, parseLoopStep_cons_word src c _ hc,
    parseCommand_unknown src c rest hlook]
  rfl

theorem addView_cons (src : String) (c t : ConfigToken) (ts : List ConfigToken) :
    addViewCommandConstructor src c (t :: ts) =
      Except.ok (ConfigCommand.AddViewCommand t ts) := rfl

theorem addView_empty (src : String) (c : ConfigToken) :
    addViewCommandConstructor src c [] =
      Except.error (generateConfigError src c
        ("Invalid " ++ c.value ++ " command. Usage: " ++ c.value ++
          " [VIEW] [ARGS...]")) := rfl

theorem splitView_empty (src : String) (c : ConfigToken) :
    splitViewCommandConstructor src c [] =
      Except.error (generateConfigError src c
        ("Invalid " ++ c.value ++ " command. Usage: " ++ c.value ++
          " [VIEW] [ARGS...]")) := rfl

theorem splitView_split (src : String) (c t : ConfigToken) (ts : List ConfigToken)
    (h : c.value = splitCommand) :
    splitViewCommandConstructor src c (t :: ts) =
      Except.ok (ConfigCommand.SplitViewCommand ContainerOrientation.CoDynamic t ts) := by
  simp [splitViewCommandConstructor, h]

theorem splitView_hsplit (src : String) (c t : ConfigToken) (ts : List ConfigToken)
    (h : c.value = hsplitCommand) :
    splitViewCommandConstructor src c (t :: ts) =
      Except.ok (ConfigCommand.SplitViewCommand ContainerOrientation.CoHorizontal t ts) := by
  rw [splitViewCommandConstructor]
  rw [if_neg (by rw [h]; decide), if_pos h]

theorem splitView_vsplit (src : String) (c t : ConfigToken) (ts : List ConfigToken)
    (h : c.value = vsplitCommand) :
    splitViewCommandConstructor src c (t :: ts) =
      Except.ok (ConfigCommand.SplitViewCommand ContainerOrientation.CoVertical t ts) := by
  rw [splitViewCommandConstructor]
  rw [if_neg (by rw [h]; decide), if_neg (by rw [h]; decide), if_pos h]

theorem splitView_other (src : String) (c t : ConfigToken) (ts : List ConfigToken)
    (h1 : c.value ≠ splitCommand) (h2 : c.value ≠ hsplitCommand)
    (h3 : c.value ≠ vsplitCommand) :
    splitViewCommandConstructor src c (t :: ts) =
      Except.error (generateConfigError src c
        ("Unrecognised command: " ++ c.value)) := by
  rw [splitViewCommandConstructor]
  rw [if_neg h1, if_neg h2, if_neg h3]

theorem commandDescriptors_set :
    commandDescriptors setCommand = some setCommandDescriptor := rfl

theorem commandDescriptors_theme :
    commandDescriptors themeCommand = some themeCommandDescriptor := rfl

theorem commandDescriptors_map :
    commandDescriptors mapCommand = some mapCommandDescriptor := rfl

theorem commandDescriptors_unmap :
    commandDescriptors unmapCommand = some unmapCommandDescriptor := rfl

theorem commandDescriptors_quit :
    commandDescriptors quitCommand = some quitCommandDescriptor := rfl

theorem commandDescriptors_addtab :
    commandDescriptors addtabCommand = some addtabCommandDescriptor := rfl

theorem commandDescriptors_removetab :
    commandDescriptors removetabCommand = some removetabCommandDescriptor := rfl

theorem commandDescriptors_addview :
    commandDescriptors addviewCommand = some addviewCommandDescriptor := rfl

theorem commandDescriptors_vsplit :
    commandDescriptors vsplitCommand = some vsplitCommandDescriptor := rfl

theorem commandDescriptors_hsplit :
    commandDescriptors hsplitCommand = some hsplitCommandDescriptor := rfl

theorem commandDescriptors_split :
    commandDescriptors splitCommand = some splitCommandDescriptor := rfl

/-- C1 (amended): for every call to Parse in which the scanner itself fails
while reading the leading token, the scanner error is returned to the caller
immediately — nil command, endOfInput false — and no recovery (token
discarding) is performed before returning: the parser is left exactly at the
scanner position after the failure. -/
theorem parse_scannerFailure_leading_no_recovery (p : ConfigParser) (e : String)
    (rest : List ScanResult) (h : pscan p.scanner = (Except.error e, rest)) :
    ConfigParser.Parse p = (⟨none, false, some e⟩, ⟨rest, p.inputSource⟩) := by
  obtain ⟨s, src⟩ := p
  rw [Parse_eq, parseLoopStep_eq]
  simp only [h]

theorem parse_scannerFailure_leading_no_recovery_witness :
    ConfigParser.Parse ⟨[ScanResult.fail "boom", ScanResult.ok (wordTok "a")], "cfg"⟩ =
      (⟨none, false, some "boom"⟩, ⟨[ScanResult.ok (wordTok "a")], "cfg"⟩) :=
  parse_scannerFailure_leading_no_recovery
    ⟨[ScanResult.fail "boom", ScanResult.ok (wordTok "a")], "cfg"⟩ "boom"
    [ScanResult.ok (wordTok "a")] rfl

/-- C1 counterexample: when the scanner fails while reading a command's
argument tokens, the raw scanner error is returned, but Parse runs the
recovery discard first: here the tokens of the word "a" and the terminator
are discarded (final scanner state is empty, not the two remaining
results), contradicting the claim that no token discarding is performed for
argument-position scanner failures. -/
theorem parse_scannerFailure_args_recovery_counterexample :
    ConfigParser.Parse ⟨[ScanResult.ok (wordTok "set"), ScanResult.fail "read failure",
        ScanResult.ok (wordTok "a"), ScanResult.ok termTok], "cfg"⟩ =
      (⟨none, false, some "read failure"⟩, ⟨[], "cfg"⟩) ∧
    ([] : List ScanResult) ≠
      [ScanResult.ok (wordTok "a"), ScanResult.ok termTok] := by
  constructor
  · rw [Parse_eq, parseLoopStep_cons_word "cfg" (wordTok "set") _ rfl]
    have hlook : commandDescriptors (wordTok "set").value = some setCommandDescriptor := rfl
    have hpc : parseCommand "cfg" (wordTok "set")
        [ScanResult.fail "read failure", ScanResult.ok (wordTok "a"),
          ScanResult.ok termTok] =
        (none, false, some "read failure",
          [ScanResult.ok (wordTok "a"), ScanResult.ok termTok]) := by
      simp [parseCommand, hlook, setCommandDescriptor, parseFixedArgs,
        pscan_cons_fail]
    rw [hpc, parseReturn_some]
    rw [discard_cons_skip (wordTok "a") _ (by decide) (by decide),
      discard_cons_boundary termTok _ (by decide)]
  · decide

/-- C4: for every fixed-arity command whose argument tokens are exhausted by
end-of-input before all expected kinds are matched, Parse returns a nil
command, an error whose message contains "Unexpected EOF", and
endOfInput = true on that same call. -/
theorem parse_fixed_unexpected_eof (src : String) (w : ConfigToken)
    (cd : commandDescriptor) (args : List ConfigToken) (eTok : ConfigToken)
    (rest : List ScanResult)
    (hw : w.tokenType = ConfigTokenType.CtkWord)
    (hlook : commandDescriptors w.value = some cd)
    (hvar : cd.varArgs = false)
    (hmatch : listCleanMatch args (cd.tokenTypes.take args.length) = true)
    (hlt : args.length < cd.tokenTypes.length)
    (he : eTok.tokenType = ConfigTokenType.CtkEOF) (heerr : eTok.err = none) :
    (ConfigParser.Parse
        ⟨ScanResult.ok w :: (args.map ScanResult.ok ++ ScanResult.ok eTok :: rest), src⟩).1 =
      ⟨none, true, some (generateConfigError src eTok "Unexpected EOF")⟩ ∧
    ∃ a b, generateConfigError src eTok "Unexpected EOF" =
      a ++ "Unexpected EOF" ++ b := by
  constructor
  · rw [Parse_eq, parseLoopStep_cons_word src w _ hw]
    simp only [parseCommand, hlook, hvar, Bool.false_eq_true, if_false, ite_false]
    rw [parseFixedArgs_consume src cd w args cd.tokenTypes []
      (ScanResult.ok eTok :: rest) hmatch (le_of_lt hlt)]
    rcases hdrop : cd.tokenTypes.drop args.length with _ | ⟨k, ks⟩
    · rw [List.drop_eq_nil_iff_le] at hdrop
      omega
    · rw [parseFixedArgs]
      rw [pscan_cons_sig eTok rest (by simp [he]) (by simp [he])]
      simp only [heerr, he, ne_eq, not_true_eq_false, not_false_eq_true,
        if_true, if_false, ite_true, ite_false]
      rw [parseReturn_some]
  · refine ⟨(if src = "" then ""
      else src ++ ":" ++ toString eTok.startPos.line ++ ":" ++
        toString eTok.startPos.col ++ " "), "", ?_⟩
    simp [generateConfigError, heerr]

theorem parse_fixed_unexpected_eof_witness :
    (ConfigParser.Parse
        ⟨ScanResult.ok (wordTok "set") ::
          ([wordTok "foo"].map ScanResult.ok ++ ScanResult.ok eofInputTok :: []), "cfg"⟩).1 =
      ⟨none, true, some (generateConfigError "cfg" eofInputTok "Unexpected EOF")⟩ ∧
    ∃ a b, generateConfigError "cfg" eofInputTok "Unexpected EOF" =
      a ++ "Unexpected EOF" ++ b :=
  parse_fixed_unexpected_eof "cfg" (wordTok "set") setCommandDescriptor
    [wordTok "foo"] eofInputTok [] rfl rfl rfl (by decide) (by decide) rfl rfl

/-- C10: a variable-arity command whose argument accumulation is stopped by
an EndOfInput token returns the constructed command with endOfInput = false
and a nil error; end-of-input is reported only on the following Parse
call. -/
theorem parse_varargs_eof_deferred (src : String) (c a1 : ConfigToken)
    (as : List ConfigToken) (eTok : ConfigToken)
    (hc : c.tokenType = ConfigTokenType.CtkWord)
    (hv : c.value = addviewCommand ∨ c.value = vsplitCommand ∨
      c.value = hsplitCommand ∨ c.value = splitCommand)
    (ha1 : cleanVarArg a1 = true) (has : as.all cleanVarArg = true)
    (he : eTok.tokenType = ConfigTokenType.CtkEOF) (heerr : eTok.err = none) :
    (∃ cmd, ConfigParser.Parse
        ⟨ScanResult.ok c :: (ScanResult.ok a1 :: as.map ScanResult.ok ++ [ScanResult.ok eTok]), src⟩ =
      (⟨some cmd, false, none⟩, ⟨[], src⟩)) ∧
    ConfigParser.Parse ⟨[], src⟩ = (⟨none, true, none⟩, ⟨[], src⟩) := by
  have hargs : (a1 :: as).all cleanVarArg = true := by simp [ha1, has]
  constructor
  · rcases hv with hv | hv | hv | hv
    · refine ⟨ConfigCommand.AddViewCommand a1 as, ?_⟩
      have := Parse_var_ok src c addviewCommandDescriptor (a1 :: as) eTok []
        (ConfigCommand.AddViewCommand a1 as) hc (by rw [hv]; exact commandDescriptors_addview) rfl hargs
        (Or.inl he) heerr (addView_cons src c a1 as)
      simpa using this
    · refine ⟨ConfigCommand.SplitViewCommand ContainerOrientation.CoVertical a1 as, ?_⟩
      have := Parse_var_ok src c vsplitCommandDescriptor (a1 :: as) eTok []
        (ConfigCommand.SplitViewCommand ContainerOrientation.CoVertical a1 as)
        hc (by rw [hv]; exact commandDescriptors_vsplit) rfl hargs (Or.inl he) heerr (splitView_vsplit src c a1 as hv)
      simpa using this
    · refine ⟨ConfigCommand.SplitViewCommand ContainerOrientation.CoHorizontal a1 as, ?_⟩
      have := Parse_var_ok src c hsplitCommandDescriptor (a1 :: as) eTok []
        (ConfigCommand.SplitViewCommand ContainerOrientation.CoHorizontal a1 as)
        hc (by rw [hv]; exact commandDescriptors_hsplit) rfl hargs (Or.inl he) heerr (splitView_hsplit src c a1 as hv)
      simpa using this
    · refine ⟨ConfigCommand.SplitViewCommand ContainerOrientation.CoDynamic a1 as, ?_⟩
      have := Parse_var_ok src c splitCommandDescriptor (a1 :: as) eTok []
        (ConfigCommand.SplitViewCommand ContainerOrientation.CoDynamic a1 as)
        hc (by rw [hv]; exact commandDescriptors_split) rfl hargs (Or.inl he) heerr (splitView_split src c a1 as hv)
      simpa using this
  · rw [Parse_eq, parseLoopStep_nil]

theorem parse_varargs_eof_deferred_witness :
    (∃ cmd, ConfigParser.Parse
        ⟨ScanResult.ok (wordTok "addview") ::
          (ScanResult.ok (wordTok "log") :: ([] : List ConfigToken).map ScanResult.ok ++
            [ScanResult.ok eofInputTok]), "cfg"⟩ =
      (⟨some cmd, false, none⟩, ⟨[], "cfg"⟩)) ∧
    ConfigParser.Parse ⟨[], "cfg"⟩ = (⟨none, true, none⟩, ⟨[], "cfg"⟩) :=
  parse_varargs_eof_deferred "cfg" (wordTok "addview") (wordTok "log") []
    eofInputTok rfl (Or.inl rfl) (by decide) (by decide) (by decide) (by decide)

theorem optOverride_some (v : ConfigToken) (old : Option ConfigToken) :
    optOverride (some v) old = some v := rfl

theorem optOverride_assoc (a b c : Option ConfigToken) :
    optOverride (optOverride a b) c = optOverride a (optOverride b c) := by
  cases a <;> rfl

theorem optOverride_none_right (a : Option ConfigToken) :
    optOverride a none = a := by
  cases a <;> rfl

theorem lastPairValue_cons (opt : String) (o v : ConfigToken)
    (rest : List ConfigToken) :
    lastPairValue opt (o :: v :: rest) =
      optOverride (lastPairValue opt rest)
        (if o.value = opt then some v else none) := rfl

theorem themeOptionSetter_name :
    themeOptionSetter "--name" =
      some (fun st v => { st with name := some v }) := rfl

theorem themeOptionSetter_component :
    themeOptionSetter "--component" =
      some (fun st v => { st with component := some v }) := rfl

theorem themeOptionSetter_bgcolor :
    themeOptionSetter "--bgcolor" =
      some (fun st v => { st with bgcolor := some v }) := rfl

theorem themeOptionSetter_fgcolor :
    themeOptionSetter "--fgcolor" =
      some (fun st v => { st with fgcolor := some v }) := rfl

theorem themeGo_spec (src : String) :
    ∀ (toks : List ConfigToken) (st : themeCommandState),
      themeAllRecognized toks = true →
      themeGo src toks st = Except.ok
        { name := optOverride (lastPairValue "--name" toks) st.name,
          component := optOverride (lastPairValue "--component" toks) st.component,
          bgcolor := optOverride (lastPairValue "--bgcolor" toks) st.bgcolor,
          fgcolor := optOverride (lastPairValue "--fgcolor" toks) st.fgcolor }
  | [], st, _ => rfl
  | [_], st, _ => rfl
  | o :: v :: rest, st, h => by
    simp only [themeAllRecognized, Bool.and_eq_true] at h
    obtain ⟨ho, hrest⟩ := h
    simp only [isThemeOption, Bool.or_eq_true, beq_iff_eq] at ho
    rcases ho with ((ho | ho) | ho) | ho
    · rw [themeGo, ho, themeOptionSetter_name]
      simp only [themeGo_spec src rest { st with name := some v } hrest]
      simp [lastPairValue_cons, ho, optOverride_assoc, optOverride_none_right,
        optOverride_some]
    · rw [themeGo, ho, themeOptionSetter_component]
      simp only [themeGo_spec src rest { st with component := some v } hrest]
      simp [lastPairValue_cons, ho, optOverride_assoc, optOverride_none_right,
        optOverride_some]
    · rw [themeGo, ho, themeOptionSetter_bgcolor]
      simp only [themeGo_spec src rest { st with bgcolor := some v } hrest]
      simp [lastPairValue_cons, ho, optOverride_assoc, optOverride_none_right,
        optOverride_some]
    · rw [themeGo, ho, themeOptionSetter_fgcolor]
      simp only [themeGo_spec src rest { st with fgcolor := some v } hrest]
      simp [lastPairValue_cons, ho, optOverride_assoc, optOverride_none_right,
        optOverride_some]

/-- Runs themeGo from the all-unset initial state: for an all-recognized
token list the constructor yields the last-written value per option name. -/
theorem themeConstructor_spec (src : String) (ct : ConfigToken)
    (toks : List ConfigToken) (hrec : themeAllRecognized toks = true) :
    themeCommandConstructor src ct toks =
      Except.ok (ConfigCommand.ThemeCommand
        (lastPairValue "--name" toks) (lastPairValue "--component" toks)
        (lastPairValue "--bgcolor" toks) (lastPairValue "--fgcolor" toks)) := by
  simp only [themeCommandConstructor, themeGo_spec src toks {} hrec,
    optOverride_none_right]

theorem cleanMatch_setValue (t : ConfigToken) (v : String) (k : ConfigTokenType) :
    cleanMatch { t with value := v } k = cleanMatch t k := rfl

/-- C2 (amended): for every command name in the registry and every token
stream whose significant tokens are that command name followed by tokens
carrying no embedded lexical error that exactly match its grammar (fixed:
the expected kinds in order and count; variable: at least one trailing
token before a terminator), and — for the theme command — whose option
tokens' texts are among the four recognized theme options (in any order,
duplicates allowed), Parse returns a command value of the matching variant
whose fields are the supplied tokens in position order — theme fields keyed
by option name, each field holding the value of the last pair naming it —
with a nil error and endOfInput = false.  One conjunct per registry name. -/
theorem parse_exact_grammar_commands
    (src : String) (c w1 w2 w3 o1 o2 o3 o4 v1 v2 v3 v4 a1 : ConfigToken)
    (as : List ConfigToken) (bTok : ConfigToken) (rest : List ScanResult)
    (hc : c.tokenType = ConfigTokenType.CtkWord)
    (hw1 : cleanMatch w1 ConfigTokenType.CtkWord = true)
    (hw2 : cleanMatch w2 ConfigTokenType.CtkWord = true)
    (hw3 : cleanMatch w3 ConfigTokenType.CtkWord = true)
    (ho1 : cleanMatch o1 ConfigTokenType.CtkOption = true)
    (ho2 : cleanMatch o2 ConfigTokenType.CtkOption = true)
    (ho3 : cleanMatch o3 ConfigTokenType.CtkOption = true)
    (ho4 : cleanMatch o4 ConfigTokenType.CtkOption = true)
    (hv1 : cleanMatch v1 ConfigTokenType.CtkWord = true)
    (hv2 : cleanMatch v2 ConfigTokenType.CtkWord = true)
    (hv3 : cleanMatch v3 ConfigTokenType.CtkWord = true)
    (hv4 : cleanMatch v4 ConfigTokenType.CtkWord = true)
    (hr1 : isThemeOption o1.value = true)
    (hr2 : isThemeOption o2.value = true)
    (hr3 : isThemeOption o3.value = true)
    (hr4 : isThemeOption o4.value = true)
    (ha1 : cleanVarArg a1 = true) (has : as.all cleanVarArg = true)
    (hb : bTok.tokenType = ConfigTokenType.CtkTerminator)
    (hberr : bTok.err = none) :
    ConfigParser.Parse ⟨ScanResult.ok { c with value := setCommand } ::
        ScanResult.ok w1 :: ScanResult.ok w2 :: rest, src⟩ =
      (⟨some (ConfigCommand.SetCommand w1 w2), false, none⟩, ⟨rest, src⟩) ∧
    ConfigParser.Parse ⟨ScanResult.ok { c with value := themeCommand } ::
        ScanResult.ok o1 :: ScanResult.ok v1 ::
        ScanResult.ok o2 :: ScanResult.ok v2 ::
        ScanResult.ok o3 :: ScanResult.ok v3 ::
        ScanResult.ok o4 :: ScanResult.ok v4 ::
        rest, src⟩ =
      (⟨some (ConfigCommand.ThemeCommand
          (lastPairValue "--name" [o1, v1, o2, v2, o3, v3, o4, v4])
          (lastPairValue "--component" [o1, v1, o2, v2, o3, v3, o4, v4])
          (lastPairValue "--bgcolor" [o1, v1, o2, v2, o3, v3, o4, v4])
          (lastPairValue "--fgcolor" [o1, v1, o2, v2, o3, v3, o4, v4])),
        false, none⟩, ⟨rest, src⟩) ∧
    ConfigParser.Parse ⟨ScanResult.ok { c with value := mapCommand } ::
        ScanResult.ok w1 :: ScanResult.ok w2 :: ScanResult.ok w3 :: rest, src⟩ =
      (⟨some (ConfigCommand.MapCommand w1 w2 w3), false, none⟩, ⟨rest, src⟩) ∧
    ConfigParser.Parse ⟨ScanResult.ok { c with value := unmapCommand } ::
        ScanResult.ok w1 :: ScanResult.ok w2 :: rest, src⟩ =
      (⟨some (ConfigCommand.UnmapCommand w1 w2), false, none⟩, ⟨rest, src⟩) ∧
    ConfigParser.Parse ⟨ScanResult.ok { c with value := quitCommand } :: rest, src⟩ =
      (⟨some ConfigCommand.QuitCommand, false, none⟩, ⟨rest, src⟩) ∧
    ConfigParser.Parse ⟨ScanResult.ok { c with value := addtabCommand } ::
        ScanResult.ok w1 :: rest, src⟩ =
      (⟨some (ConfigCommand.NewTabCommand w1), false, none⟩, ⟨rest, src⟩) ∧
    ConfigParser.Parse ⟨ScanResult.ok { c with value := removetabCommand } :: rest, src⟩ =
      (⟨some ConfigCommand.RemoveTabCommand, false, none⟩, ⟨rest, src⟩) ∧
    ConfigParser.Parse ⟨ScanResult.ok { c with value := addviewCommand } ::
        (ScanResult.ok a1 :: as.map ScanResult.ok ++ ScanResult.ok bTok :: rest), src⟩ =
      (⟨some (ConfigCommand.AddViewCommand a1 as), false, none⟩, ⟨rest, src⟩) ∧
    ConfigParser.Parse ⟨ScanResult.ok { c with value := vsplitCommand } ::
        (ScanResult.ok a1 :: as.map ScanResult.ok ++ ScanResult.ok bTok :: rest), src⟩ =
      (⟨some (ConfigCommand.SplitViewCommand ContainerOrientation.CoVertical a1 as),
        false, none⟩, ⟨rest, src⟩) ∧
    ConfigParser.Parse ⟨ScanResult.ok { c with value := hsplitCommand } ::
        (ScanResult.ok a1 :: as.map ScanResult.ok ++ ScanResult.ok bTok :: rest), src⟩ =
      (⟨some (ConfigCommand.SplitViewCommand ContainerOrientation.CoHorizontal a1 as),
        false, none⟩, ⟨rest, src⟩) ∧
    ConfigParser.Parse ⟨ScanResult.ok { c with value := splitCommand } ::
        (ScanResult.ok a1 :: as.map ScanResult.ok ++ ScanResult.ok bTok :: rest), src⟩ =
      (⟨some (ConfigCommand.SplitViewCommand ContainerOrientation.CoDynamic a1 as),
        false, none⟩, ⟨rest, src⟩) := by
  have hvargs : (a1 :: as).all cleanVarArg = true := by simp [ha1, has]
  refine ⟨?_, ?_, ?_, ?_, ?_, ?_, ?_, ?_, ?_, ?_, ?_⟩
  · have := Parse_fixed_ok src { c with value := setCommand } setCommandDescriptor
      [w1, w2] rest (ConfigCommand.SetCommand w1 w2) hc commandDescriptors_set rfl
      (by simp [setCommandDescriptor, listCleanMatch, hw1, hw2]) rfl
    simpa using this
  · have hrec : themeAllRecognized [o1, v1, o2, v2, o3, v3, o4, v4] = true := by
      simp [themeAllRecognized, hr1, hr2, hr3, hr4]
    have := Parse_fixed_ok src { c with value := themeCommand } themeCommandDescriptor
      [o1, v1, o2, v2, o3, v3, o4, v4] rest
      (ConfigCommand.ThemeCommand
        (lastPairValue "--name" [o1, v1, o2, v2, o3, v3, o4, v4])
        (lastPairValue "--component" [o1, v1, o2, v2, o3, v3, o4, v4])
        (lastPairValue "--bgcolor" [o1, v1, o2, v2, o3, v3, o4, v4])
        (lastPairValue "--fgcolor" [o1, v1, o2, v2, o3, v3, o4, v4]))
      hc commandDescriptors_theme rfl
      (by simp [themeCommandDescriptor, listCleanMatch,
        ho1, ho2, ho3, ho4, hv1, hv2, hv3, hv4])
      (themeConstructor_spec src { c with value := themeCommand }
        [o1, v1, o2, v2, o3, v3, o4, v4] hrec)
    simpa using this
  · have := Parse_fixed_ok src { c with value := mapCommand } mapCommandDescriptor
      [w1, w2, w3] rest (ConfigCommand.MapCommand w1 w2 w3) hc
      commandDescriptors_map rfl
      (by simp [mapCommandDescriptor, listCleanMatch, hw1, hw2, hw3]) rfl
    simpa using this
  · have := Parse_fixed_ok src { c with value := unmapCommand } unmapCommandDescriptor
      [w1, w2] rest (ConfigCommand.UnmapCommand w1 w2) hc
      commandDescriptors_unmap rfl
      (by simp [unmapCommandDescriptor, listCleanMatch, hw1, hw2]) rfl
    simpa using this
  · have := Parse_fixed_ok src { c with value := quitCommand } quitCommandDescriptor
      [] rest ConfigCommand.QuitCommand hc commandDescriptors_quit rfl rfl rfl
    simpa using this
  · have := Parse_fixed_ok src { c with value := addtabCommand } addtabCommandDescriptor
      [w1] rest (ConfigCommand.NewTabCommand w1) hc commandDescriptors_addtab rfl
      (by simp [addtabCommandDescriptor, listCleanMatch, hw1]) rfl
    simpa using this
  · have := Parse_fixed_ok src { c with value := removetabCommand }
      removetabCommandDescriptor [] rest ConfigCommand.RemoveTabCommand hc
      commandDescriptors_removetab rfl rfl rfl
    simpa using this
  · have := Parse_var_ok src { c with value := addviewCommand } addviewCommandDescriptor
      (a1 :: as) bTok rest (ConfigCommand.AddViewCommand a1 as) hc
      commandDescriptors_addview rfl hvargs (Or.inr hb) hberr
      (addView_cons src { c with value := addviewCommand } a1 as)
    simpa using this
  · have := Parse_var_ok src { c with value := vsplitCommand } vsplitCommandDescriptor
      (a1 :: as) bTok rest
      (ConfigCommand.SplitViewCommand ContainerOrientation.CoVertical a1 as) hc
      commandDescriptors_vsplit rfl hvargs (Or.inr hb) hberr
      (splitView_vsplit src { c with value := vsplitCommand } a1 as rfl)
    simpa using this
  · have := Parse_var_ok src { c with value := hsplitCommand } hsplitCommandDescriptor
      (a1 :: as) bTok rest
      (ConfigCommand.SplitViewCommand ContainerOrientation.CoHorizontal a1 as) hc
      commandDescriptors_hsplit rfl hvargs (Or.inr hb) hberr
      (splitView_hsplit src { c with value := hsplitCommand } a1 as rfl)
    simpa using this
  · have := Parse_var_ok src { c with value := splitCommand } splitCommandDescriptor
      (a1 :: as) bTok rest
      (ConfigCommand.SplitViewCommand ContainerOrientation.CoDynamic a1 as) hc
      commandDescriptors_split rfl hvargs (Or.inr hb) hberr
      (splitView_split src { c with value := splitCommand } a1 as rfl)
    simpa using this

theorem parse_exact_grammar_commands_witness :
    ConfigParser.Parse ⟨ScanResult.ok { wordTok "x" with value := themeCommand } ::
        ScanResult.ok (optionTok "--bgcolor") :: ScanResult.ok (wordTok "1") ::
        ScanResult.ok (optionTok "--name") :: ScanResult.ok (wordTok "X") ::
        ScanResult.ok (optionTok "--fgcolor") :: ScanResult.ok (wordTok "2") ::
        ScanResult.ok (optionTok "--component") :: ScanResult.ok (wordTok "Y") ::
        [], "cfg"⟩ =
      (⟨some (ConfigCommand.ThemeCommand (some (wordTok "X")) (some (wordTok "Y"))
        (some (wordTok "1")) (some (wordTok "2"))), false, none⟩, ⟨[], "cfg"⟩) := by
  have h := (parse_exact_grammar_commands "cfg" (wordTok "x") (wordTok "w1")
    (wordTok "w2") (wordTok "w3") (optionTok "--bgcolor") (optionTok "--name")
    (optionTok "--fgcolor") (optionTok "--component") (wordTok "1") (wordTok "X")
    (wordTok "2") (wordTok "Y") (wordTok "log") [] termTok []
    rfl (by decide) (by decide) (by decide) (by decide) (by decide)
    (by decide) (by decide) (by decide) (by decide) (by decide) (by decide)
    (by decide) (by decide) (by decide) (by decide) (by decide) (by decide)
    rfl rfl).2.1
  exact h.trans (by decide)

/-- C2 counterexample: two token streams whose significant tokens are a
registry command name followed by tokens exactly matching the command's
expected kinds in order and count, on which Parse nevertheless returns a
nil command and an error: a theme command whose option tokens include the
unrecognized "--bogus", and a set command whose first argument token
carries an embedded lexical error. -/
theorem parse_exact_grammar_counterexample :
    ConfigParser.Parse ⟨[ScanResult.ok (wordTok "theme"),
        ScanResult.ok (optionTok "--bogus"), ScanResult.ok (wordTok "X"),
        ScanResult.ok (optionTok "--name"), ScanResult.ok (wordTok "A"),
        ScanResult.ok (optionTok "--component"), ScanResult.ok (wordTok "C"),
        ScanResult.ok (optionTok "--bgcolor"), ScanResult.ok (wordTok "1"),
        ScanResult.ok termTok], "cfg"⟩ =
      (⟨none, false, some (generateConfigError "cfg" (optionTok "--bogus")
        "Invalid option for theme command: \"--bogus\"")⟩, ⟨[], "cfg"⟩) ∧
    ConfigParser.Parse ⟨[ScanResult.ok (wordTok "set"),
        ScanResult.ok { wordTok "foo" with err := some "unterminated quote" },
        ScanResult.ok (wordTok "bar"), ScanResult.ok termTok], "cfg"⟩ =
      (⟨none, false, some (generateConfigError "cfg"
        { wordTok "foo" with err := some "unterminated quote" } "Syntax Error")⟩,
        ⟨[], "cfg"⟩) := by
  constructor
  · have hcons : themeCommandDescriptor.construct "cfg" (wordTok "theme")
        [optionTok "--bogus", wordTok "X", optionTok "--name", wordTok "A",
          optionTok "--component", wordTok "C", optionTok "--bgcolor", wordTok "1"] =
        Except.error (generateConfigError "cfg" (optionTok "--bogus")
          "Invalid option for theme command: \"--bogus\"") := rfl
    have := Parse_fixed_err "cfg" (wordTok "theme") themeCommandDescriptor
      [optionTok "--bogus", wordTok "X", optionTok "--name", wordTok "A",
        optionTok "--component", wordTok "C", optionTok "--bgcolor", wordTok "1"]
      [ScanResult.ok termTok]
      (generateConfigError "cfg" (optionTok "--bogus")
        "Invalid option for theme command: \"--bogus\"")
      rfl commandDescriptors_theme rfl (by decide) hcons
    rw [discard_cons_boundary termTok _ (by decide)] at this
    simpa using this
  · rw [Parse_eq, parseLoopStep_cons_word "cfg" (wordTok "set") _ rfl]
    have hlook : commandDescriptors "set" = some setCommandDescriptor := rfl
    have hpc : parseCommand "cfg" (wordTok "set")
        [ScanResult.ok { wordTok "foo" with err := some "unterminated quote" },
          ScanResult.ok (wordTok "bar"), ScanResult.ok termTok] =
        (none, false,
          some (generateConfigError "cfg"
            { wordTok "foo" with err := some "unterminated quote" } "Syntax Error"),
          [ScanResult.ok (wordTok "bar"), ScanResult.ok termTok]) := by
      simp only [parseCommand, wordTok, mkTok, hlook, setCommandDescriptor]
      simp [parseFixedArgs, pscan, generateConfigError, termTok, mkTok]
    rw [hpc, parseReturn_some]
    rw [discard_cons_skip (wordTok "bar") _ (by decide) (by decide),
      discard_cons_boundary termTok _ (by decide)]

/-- C3 (amended): after any parse failure that produces an error, Parse
discards tokens from the failure point until a Terminator, EndOfInput or
scanner error is observed before returning, and scanner errors met while
discarding are swallowed rather than surfaced, so the next call resumes
right after the stopping point.  First conjunct: any failing command
dispatch — whatever the parse error produced while handling a leading word
token — returns that error with the scanner advanced to the discard of the
failure-point state.  Second and third conjuncts: the option-token and
invalid-token failures of the dispatch loop behave the same way.  Fourth
and fifth conjuncts: the discard consumes arbitrary non-boundary tokens and
stops right after a terminator or EOF, or right after a scanner error,
which it swallows. -/
theorem parse_failure_recovery
    (src : String) (t o it bTok : ConfigToken) (junk : List ConfigToken)
    (e eS : String) (s s2 rest : List ScanResult)
    (cmd : Option ConfigCommand) (b : Bool)
    (hword : t.tokenType = ConfigTokenType.CtkWord)
    (hpc : parseCommand src t s = (cmd, b, some e, s2))
    (hopt : o.tokenType = ConfigTokenType.CtkOption)
    (hit : it.tokenType = ConfigTokenType.CtkInvalid)
    (hjunk : junk.all notBoundaryTok = true)
    (hb : bTok.tokenType = ConfigTokenType.CtkTerminator ∨
      bTok.tokenType = ConfigTokenType.CtkEOF) :
    ConfigParser.Parse ⟨ScanResult.ok t :: s, src⟩ =
      (⟨cmd, b, some e⟩, ⟨discardTokensUntilNextCommand s2, src⟩) ∧
    ConfigParser.Parse ⟨ScanResult.ok o :: rest, src⟩ =
      (⟨none, false, some (generateConfigError src o
        ("Unexpected Option \"" ++ o.value ++ "\""))⟩,
        ⟨discardTokensUntilNextCommand rest, src⟩) ∧
    ConfigParser.Parse ⟨ScanResult.ok it :: rest, src⟩ =
      (⟨none, false, some (generateConfigError src it "Syntax Error")⟩,
        ⟨discardTokensUntilNextCommand rest, src⟩) ∧
    discardTokensUntilNextCommand
        (junk.map ScanResult.ok ++ ScanResult.ok bTok :: rest) = rest ∧
    discardTokensUntilNextCommand
        (junk.map ScanResult.ok ++ ScanResult.fail eS :: rest) = rest := by
  refine ⟨?_, ?_, ?_, ?_, ?_⟩
  · rw [Parse_eq, parseLoopStep_cons_word src t s hword, hpc, parseReturn_some]
  · rw [Parse_eq, parseLoopStep_cons_option src o rest hopt]
  · rw [Parse_eq, parseLoopStep_cons_invalid src it rest hit]
  · rw [discard_append junk _ hjunk, discard_cons_boundary bTok rest hb]
  · rw [discard_append junk _ hjunk, discard_cons_fail eS rest]

theorem parse_failure_recovery_witness :
    ConfigParser.Parse ⟨ScanResult.ok (wordTok "bogus") ::
        [ScanResult.ok (wordTok "arg"), ScanResult.ok termTok], "cfg"⟩ =
      (⟨none, false, some (generateConfigError "cfg" (wordTok "bogus")
        "Invalid command \"bogus\"")⟩, ⟨[], "cfg"⟩) := by
  have h := (parse_failure_recovery "cfg" (wordTok "bogus") (optionTok "--x")
    (mkTok ConfigTokenType.CtkInvalid "~") termTok [wordTok "arg"]
    (generateConfigError "cfg" (wordTok "bogus") "Invalid command \"bogus\"")
    "io error"
    [ScanResult.ok (wordTok "arg"), ScanResult.ok termTok]
    [ScanResult.ok (wordTok "arg"), ScanResult.ok termTok]
    [] none false
    rfl
    ((parseCommand_unknown "cfg" (wordTok "bogus")
      [ScanResult.ok (wordTok "arg"), ScanResult.ok termTok] rfl).trans
      (by decide))
    rfl rfl (by decide) (by decide)).1
  rw [discard_cons_skip (wordTok "arg") _ (by decide) (by decide),
    discard_cons_boundary termTok _ (by decide)] at h
  exact h

/-- C3 counterexample: an empty addview command stopped by a terminator has
already consumed that terminator when its constructor fails, so the
post-failure discard eats the entire following line "set a b": the next
Parse call reports plain end-of-input instead of the set command, so the
next call does not start at the command boundary after the failed line. -/
theorem parse_failure_recovery_counterexample :
    ConfigParser.Parse ⟨[ScanResult.ok (wordTok "addview"), ScanResult.ok termTok,
        ScanResult.ok (wordTok "set"), ScanResult.ok (wordTok "a"),
        ScanResult.ok (wordTok "b"), ScanResult.ok termTok], "cfg"⟩ =
      (⟨none, false, some (generateConfigError "cfg" (wordTok "addview")
        "Invalid addview command. Usage: addview [VIEW] [ARGS...]")⟩,
        ⟨[], "cfg"⟩) ∧
    ConfigParser.Parse ⟨[], "cfg"⟩ = (⟨none, true, none⟩, ⟨[], "cfg"⟩) := by
  constructor
  · have hcons : addviewCommandDescriptor.construct "cfg" (wordTok "addview") [] =
        Except.error (generateConfigError "cfg" (wordTok "addview")
          "Invalid addview command. Usage: addview [VIEW] [ARGS...]") := rfl
    have := Parse_var_err "cfg" (wordTok "addview") addviewCommandDescriptor
      [] termTok
      [ScanResult.ok (wordTok "set"), ScanResult.ok (wordTok "a"),
        ScanResult.ok (wordTok "b"), ScanResult.ok termTok]
      (generateConfigError "cfg" (wordTok "addview")
        "Invalid addview command. Usage: addview [VIEW] [ARGS...]")
      rfl commandDescriptors_addview rfl rfl (Or.inr rfl) rfl hcons
    rw [discard_cons_skip (wordTok "set") _ (by decide) (by decide),
      discard_cons_skip (wordTok "a") _ (by decide) (by decide),
      discard_cons_skip (wordTok "b") _ (by decide) (by decide),
      discard_cons_boundary termTok _ (by decide)] at this
    simpa using this
  · rw [Parse_eq, parseLoopStep_nil]

/-- C5: for a theme command token list whose pairs all carry recognized
options, the constructor assigns to each field the value token of the last
pair naming that field, independent of pair order, and leaves fields of
never-supplied options unset.  Stated for the four-pair (eight-token) lists
the theme grammar produces. -/
theorem theme_last_write_wins (src : String) (ct : ConfigToken)
    (toks : List ConfigToken) (hlen : toks.length = 8)
    (hrec : themeAllRecognized toks = true) :
    themeCommandConstructor src ct toks =
      Except.ok (ConfigCommand.ThemeCommand
        (lastPairValue "--name" toks) (lastPairValue "--component" toks)
        (lastPairValue "--bgcolor" toks) (lastPairValue "--fgcolor" toks)) := by
  simp only [themeCommandConstructor, themeGo_spec src toks {} hrec,
    optOverride_none_right]

theorem theme_last_write_wins_witness :
    themeCommandConstructor "cfg" (wordTok "theme")
      [optionTok "--bgcolor", wordTok "1", optionTok "--name", wordTok "X",
        optionTok "--fgcolor", wordTok "2", optionTok "--component", wordTok "Y"] =
      Except.ok (ConfigCommand.ThemeCommand
        (some (wordTok "X")) (some (wordTok "Y"))
        (some (wordTok "1")) (some (wordTok "2"))) := by
  rw [theme_last_write_wins "cfg" (wordTok "theme")
    [optionTok "--bgcolor", wordTok "1", optionTok "--name", wordTok "X",
      optionTok "--fgcolor", wordTok "2", optionTok "--component", wordTok "Y"]
    rfl (by decide)]
  rfl

theorem themeOptionSetter_none_of_not (s : String)
    (h : isThemeOption s = false) : themeOptionSetter s = none := by
  obtain ⟨⟨⟨h1, h2⟩, h3⟩, h4⟩ :
      ((¬s = "--name" ∧ ¬s = "--component") ∧ ¬s = "--bgcolor") ∧
        ¬s = "--fgcolor" := by
    simpa [isThemeOption] using h
  simp [themeOptionSetter, h1, h2, h3, h4]

theorem themeGo_err (src : String) :
    ∀ (toks : List ConfigToken) (st : themeCommandState),
      themeAllRecognized toks = false →
      ∃ o, o ∈ toks ∧ isThemeOption o.value = false ∧
        themeGo src toks st = Except.error (generateConfigError src o
          ("Invalid option for theme command: \"" ++ o.value ++ "\""))
  | [], _, h => by simp [themeAllRecognized] at h
  | [x], _, h => by simp [themeAllRecognized] at h
  | o :: v :: rest, st, h => by
    by_cases hfo : isThemeOption o.value = true
    · have hrest : themeAllRecognized rest = false := by
        simpa [themeAllRecognized, hfo] using h
      have hcase := hfo
      simp only [isThemeOption, Bool.or_eq_true, beq_iff_eq] at hcase
      rcases hcase with ((ho | ho) | ho) | ho
      · obtain ⟨o2, hmem, hbad, heq⟩ :=
          themeGo_err src rest { st with name := some v } hrest
        refine ⟨o2, by simp [hmem], hbad, ?_⟩
        rw [themeGo, ho, themeOptionSetter_name]
        simpa using heq
      · obtain ⟨o2, hmem, hbad, heq⟩ :=
          themeGo_err src rest { st with component := some v } hrest
        refine ⟨o2, by simp [hmem], hbad, ?_⟩
        rw [themeGo, ho, themeOptionSetter_component]
        simpa using heq
      · obtain ⟨o2, hmem, hbad, heq⟩ :=
          themeGo_err src rest { st with bgcolor := some v } hrest
        refine ⟨o2, by simp [hmem], hbad, ?_⟩
        rw [themeGo, ho, themeOptionSetter_bgcolor]
        simpa using heq
      · obtain ⟨o2, hmem, hbad, heq⟩ :=
          themeGo_err src rest { st with fgcolor := some v } hrest
        refine ⟨o2, by simp [hmem], hbad, ?_⟩
        rw [themeGo, ho, themeOptionSetter_fgcolor]
        simpa using heq
    · have hfo' : isThemeOption o.value = false := by
        simpa using hfo
      refine ⟨o, by simp, hfo', ?_⟩
      rw [themeGo, themeOptionSetter_none_of_not o.value hfo']

/-- C6: for every theme token list in which some option position carries an
unrecognized option text, the theme constructor returns an error naming the
(first) unrecognized option text rather than any Theme value. -/
theorem theme_unrecognized_option (src : String) (ct : ConfigToken)
    (toks : List ConfigToken) (h : themeAllRecognized toks = false) :
    ∃ o, o ∈ toks ∧ isThemeOption o.value = false ∧
      themeCommandConstructor src ct toks =
        Except.error (generateConfigError src o
          ("Invalid option for theme command: \"" ++ o.value ++ "\"")) := by
  obtain ⟨o, hmem, hbad, heq⟩ := themeGo_err src toks {} h
  exact ⟨o, hmem, hbad, by simp only [themeCommandConstructor, heq]⟩

theorem theme_unrecognized_option_witness :
    ∃ o, o ∈ [optionTok "--bogus", wordTok "X", optionTok "--name", wordTok "A",
        optionTok "--component", wordTok "C", optionTok "--bgcolor", wordTok "1"] ∧
      isThemeOption o.value = false ∧
      themeCommandConstructor "cfg" (wordTok "theme")
        [optionTok "--bogus", wordTok "X", optionTok "--name", wordTok "A",
          optionTok "--component", wordTok "C", optionTok "--bgcolor", wordTok "1"] =
        Except.error (generateConfigError "cfg" o
          ("Invalid option for theme command: \"" ++ o.value ++ "\"")) :=
  theme_unrecognized_option "cfg" (wordTok "theme")
    [optionTok "--bogus", wordTok "X", optionTok "--name", wordTok "A",
      optionTok "--component", wordTok "C", optionTok "--bgcolor", wordTok "1"]
    (by decide)

/-- C7: a variable-arity command constructor (addview and the three
split-view names) given an empty accumulated token list returns a usage
error naming the command; given a non-empty list, the first token becomes
the view field and the remaining tokens, in order, the args field. -/
theorem varargs_require_view (src : String) (ct t : ConfigToken)
    (ts : List ConfigToken) :
    addViewCommandConstructor src ct [] =
      Except.error (generateConfigError src ct
        ("Invalid " ++ ct.value ++ " command. Usage: " ++ ct.value ++
          " [VIEW] [ARGS...]")) ∧
    splitViewCommandConstructor src ct [] =
      Except.error (generateConfigError src ct
        ("Invalid " ++ ct.value ++ " command. Usage: " ++ ct.value ++
          " [VIEW] [ARGS...]")) ∧
    addViewCommandConstructor src ct (t :: ts) =
      Except.ok (ConfigCommand.AddViewCommand t ts) ∧
    (ct.value = vsplitCommand ∨ ct.value = hsplitCommand ∨
        ct.value = splitCommand →
      ∃ ori, splitViewCommandConstructor src ct (t :: ts) =
        Except.ok (ConfigCommand.SplitViewCommand ori t ts)) := by
  refine ⟨rfl, rfl, rfl, ?_⟩
  rintro (h | h | h)
  · exact ⟨ContainerOrientation.CoVertical, splitView_vsplit src ct t ts h⟩
  · exact ⟨ContainerOrientation.CoHorizontal, splitView_hsplit src ct t ts h⟩
  · exact ⟨ContainerOrientation.CoDynamic, splitView_split src ct t ts h⟩

theorem varargs_require_view_witness :
    addViewCommandConstructor "cfg" (wordTok "addview") [] =
      Except.error (generateConfigError "cfg" (wordTok "addview")
        "Invalid addview command. Usage: addview [VIEW] [ARGS...]") ∧
    addViewCommandConstructor "cfg" (wordTok "addview")
        [wordTok "log", optionTok "--flag"] =
      Except.ok (ConfigCommand.AddViewCommand (wordTok "log") [optionTok "--flag"]) ∧
    ∃ ori, splitViewCommandConstructor "cfg" (wordTok "vsplit") [wordTok "tree"] =
      Except.ok (ConfigCommand.SplitViewCommand ori (wordTok "tree") []) :=
  ⟨(varargs_require_view "cfg" (wordTok "addview") (wordTok "log")
      [optionTok "--flag"]).1,
   (varargs_require_view "cfg" (wordTok "addview") (wordTok "log")
      [optionTok "--flag"]).2.2.1,
   (varargs_require_view "cfg" (wordTok "vsplit") (wordTok "tree") []).2.2.2
      (Or.inl rfl)⟩

/-- C8: for non-empty token lists the split-view constructor derives the
orientation solely from the command-name token's text — split yields
Dynamic, hsplit Horizontal, vsplit Vertical — and any other command name
reaching it yields an error rather than a command (for any token list). -/
theorem splitView_orientation (src : String) (ct t : ConfigToken)
    (ts toks : List ConfigToken) :
    (ct.value = splitCommand →
      splitViewCommandConstructor src ct (t :: ts) =
        Except.ok (ConfigCommand.SplitViewCommand ContainerOrientation.CoDynamic t ts)) ∧
    (ct.value = hsplitCommand →
      splitViewCommandConstructor src ct (t :: ts) =
        Except.ok (ConfigCommand.SplitViewCommand ContainerOrientation.CoHorizontal t ts)) ∧
    (ct.value = vsplitCommand →
      splitViewCommandConstructor src ct (t :: ts) =
        Except.ok (ConfigCommand.SplitViewCommand ContainerOrientation.CoVertical t ts)) ∧
    (ct.value ≠ splitCommand → ct.value ≠ hsplitCommand →
      ct.value ≠ vsplitCommand →
      ∃ e, splitViewCommandConstructor src ct toks = Except.error e) := by
  refine ⟨fun h => splitView_split src ct t ts h,
    fun h => splitView_hsplit src ct t ts h,
    fun h => splitView_vsplit src ct t ts h, ?_⟩
  intro h1 h2 h3
  cases toks with
  | nil => exact ⟨_, splitView_empty src ct⟩
  | cons x xs => exact ⟨_, splitView_other src ct x xs h1 h2 h3⟩

theorem splitView_orientation_witness :
    splitViewCommandConstructor "cfg" (wordTok "split") [wordTok "tree"] =
      Except.ok (ConfigCommand.SplitViewCommand ContainerOrientation.CoDynamic
        (wordTok "tree") []) ∧
    splitViewCommandConstructor "cfg" (wordTok "hsplit") [wordTok "tree"] =
      Except.ok (ConfigCommand.SplitViewCommand ContainerOrientation.CoHorizontal
        (wordTok "tree") []) ∧
    splitViewCommandConstructor "cfg" (wordTok "vsplit") [wordTok "tree"] =
      Except.ok (ConfigCommand.SplitViewCommand ContainerOrientation.CoVertical
        (wordTok "tree") []) ∧
    ∃ e, splitViewCommandConstructor "cfg" (wordTok "nope") [wordTok "tree"] =
      Except.error e :=
  ⟨(splitView_orientation "cfg" (wordTok "split") (wordTok "tree") [] []).1 rfl,
   (splitView_orientation "cfg" (wordTok "hsplit") (wordTok "tree") [] []).2.1 rfl,
   (splitView_orientation "cfg" (wordTok "vsplit") (wordTok "tree") [] []).2.2.1 rfl,
   (splitView_orientation "cfg" (wordTok "nope") (wordTok "tree") []
      [wordTok "tree"]).2.2.2 (by decide) (by decide) (by decide)⟩

theorem pscan_allOk :
    ∀ {s : List ScanResult}, allOk s = true →
      ∃ t rest, pscan s = (Except.ok t, rest) ∧ allOk rest = true
  | [], _ => ⟨eofToken, [], rfl, rfl⟩
  | ScanResult.fail e :: rest, h => by simp [allOk] at h
  | ScanResult.ok t :: rest, h => by
    have hrest : allOk rest = true := by simpa [allOk] using h
    by_cases hws : t.tokenType = ConfigTokenType.CtkWhiteSpace ∨
        t.tokenType = ConfigTokenType.CtkComment
    · obtain ⟨t2, rest2, hps, hok2⟩ := pscan_allOk hrest
      exact ⟨t2, rest2, by rw [pscan, if_pos hws]; exact hps, hok2⟩
    · exact ⟨t, rest, by rw [pscan, if_neg hws], hrest⟩

theorem parseFixedArgs_err_shape (src : String) (cd : commandDescriptor)
    (ct : ConfigToken) :
    ∀ (kinds : List ConfigTokenType) (acc : List ConfigToken)
      (s : List ScanResult) (cmd : Option ConfigCommand) (b : Bool) (e : String)
      (rest2 : List ScanResult),
      allOk s = true →
      parseFixedArgs src cd ct kinds acc s = (cmd, b, some e, rest2) →
      (∃ tok msg, e = generateConfigError src tok msg) ∨
      (∃ toks, toks.length = acc.length + kinds.length ∧
        cd.construct src ct toks = Except.error e) := by
  intro kinds
  induction kinds with
  | nil =>
    intro acc s cmd b e rest2 hok h
    simp only [parseFixedArgs] at h
    rcases hcons : cd.construct src ct acc with e2 | c <;> rw [hcons] at h
    · simp only [Prod.mk.injEq] at h
      exact Or.inr ⟨acc, by simp, by rw [hcons, Option.some.inj h.2.2.1]⟩
    · simp at h
  | cons k ks ih =>
    intro acc s cmd b e rest2 hok h
    obtain ⟨t, rest, hps, hokr⟩ := pscan_allOk hok
    simp only [parseFixedArgs, hps] at h
    by_cases herr : t.err = none
    · rw [if_neg (by simp [herr])] at h
      by_cases heof : t.tokenType = ConfigTokenType.CtkEOF
      · rw [if_pos heof] at h
        simp only [Prod.mk.injEq, Option.some.injEq] at h
        exact Or.inl ⟨t, "Unexpected EOF", h.2.2.1.symm⟩
      · rw [if_neg heof] at h
        by_cases hmis : t.tokenType = k
        · rw [if_neg (by simp [hmis])] at h
          rcases ih (acc ++ [t]) rest cmd b e rest2 hokr h with hL | ⟨toks, hlen, hcons⟩
          · exact Or.inl hL
          · refine Or.inr ⟨toks, ?_, hcons⟩
            simp only [List.length_append, List.length_nil,
              List.length_cons] at hlen ⊢
            omega
        · rw [if_pos hmis] at h
          simp only [Prod.mk.injEq, Option.some.injEq] at h
          exact Or.inl ⟨t, _, h.2.2.1.symm⟩
    · rw [if_pos herr] at h
      simp only [Prod.mk.injEq, Option.some.injEq] at h
      exact Or.inl ⟨t, "Syntax Error", h.2.2.1.symm⟩

theorem parseVarArgsGo_err_shape (src : String) (cd : commandDescriptor)
    (ct : ConfigToken) :
    ∀ (n : Nat) (s : List ScanResult) (acc : List ConfigToken)
      (cmd : Option ConfigCommand) (b : Bool) (e : String)
      (rest2 : List ScanResult),
      s.length ≤ n → allOk s = true →
      parseVarArgsGo src cd ct acc s = (cmd, b, some e, rest2) →
      (∃ tok msg, e = generateConfigError src tok msg) ∨
      (∃ toks, cd.construct src ct toks = Except.error e) := by
  intro n
  induction n with
  | zero =>
    intro s acc cmd b e rest2 hn hok h
    have hs : s = [] := List.eq_nil_of_length_eq_zero (Nat.le_zero.mp hn)
    subst hs
    rw [parseVarArgsGo_eq] at h
    simp only [pscan_nil] at h
    rw [if_neg (by simp [eofToken])] at h
    rw [if_pos (Or.inl (by rfl))] at h
    rcases hcons : cd.construct src ct acc with e2 | c <;> rw [hcons] at h
    · simp only [Prod.mk.injEq] at h
      exact Or.inr ⟨acc, by rw [hcons, Option.some.inj h.2.2.1]⟩
    · simp at h
  | succ n ih =>
    intro s acc cmd b e rest2 hn hok h
    obtain ⟨t, rest, hps, hokr⟩ := pscan_allOk hok
    rw [parseVarArgsGo_eq] at h
    simp only [hps] at h
    by_cases herr : t.err = none
    · rw [if_neg (by simp [herr])] at h
      by_cases hbr : t.tokenType = ConfigTokenType.CtkEOF ∨
          t.tokenType = ConfigTokenType.CtkTerminator
      · rw [if_pos hbr] at h
        rcases hcons : cd.construct src ct acc with e2 | c <;> rw [hcons] at h
        · simp only [Prod.mk.injEq] at h
          exact Or.inr ⟨acc, by rw [hcons, Option.some.inj h.2.2.1]⟩
        · simp at h
      · rw [if_neg hbr] at h
        have hlt : rest.length < s.length :=
          pscan_lt_of_ok hps (fun hh => hbr (Or.inl hh))
        exact ih rest (acc ++ [t]) cmd b e rest2 (by omega) hokr h
    · rw [if_pos herr] at h
      simp only [Prod.mk.injEq, Option.some.injEq] at h
      exact Or.inl ⟨t, "Syntax Error", h.2.2.1.symm⟩

theorem addView_err_shape (src : String) (ct : ConfigToken)
    (toks : List ConfigToken) (e : String)
    (h : addViewCommandConstructor src ct toks = Except.error e) :
    ∃ tok msg, e = generateConfigError src tok msg := by
  cases toks with
  | nil =>
    rw [addView_empty] at h
    exact ⟨ct, _, (Except.error.inj h).symm⟩
  | cons x xs => simp [addView_cons] at h

theorem splitView_err_shape (src : String) (ct : ConfigToken)
    (toks : List ConfigToken) (e : String)
    (h : splitViewCommandConstructor src ct toks = Except.error e) :
    ∃ tok msg, e = generateConfigError src tok msg := by
  cases toks with
  | nil =>
    rw [splitView_empty] at h
    exact ⟨ct, _, (Except.error.inj h).symm⟩
  | cons x xs =>
    by_cases h1 : ct.value = splitCommand
    · rw [splitView_split src ct x xs h1] at h
      simp at h
    · by_cases h2 : ct.value = hsplitCommand
      · rw [splitView_hsplit src ct x xs h2] at h
        simp at h
      · by_cases h3 : ct.value = vsplitCommand
        · rw [splitView_vsplit src ct x xs h3] at h
          simp at h
        · rw [splitView_other src ct x xs h1 h2 h3] at h
          exact ⟨ct, _, (Except.error.inj h).symm⟩

theorem themeGo_err_shape (src : String) :
    ∀ (toks : List ConfigToken) (st : themeCommandState) (e : String),
      themeGo src toks st = Except.error e →
      ∃ tok msg, e = generateConfigError src tok msg
  | [], _, e, h => by simp [themeGo] at h
  | [x], _, e, h => by simp [themeGo] at h
  | o :: v :: rest, st, e, h => by
    rw [themeGo] at h
    rcases hset : themeOptionSetter o.value with _ | setter <;> rw [hset] at h
    · exact ⟨o, _, (Except.error.inj h).symm⟩
    · exact themeGo_err_shape src rest (setter st v) e h

theorem themeConstructor_err_shape (src : String) (ct : ConfigToken)
    (toks : List ConfigToken) (e : String)
    (h : themeCommandConstructor src ct toks = Except.error e) :
    ∃ tok msg, e = generateConfigError src tok msg := by
  rcases hgo : themeGo src toks {} with e2 | st
  · have h2 : themeCommandConstructor src ct toks = Except.error e2 := by
      simp only [themeCommandConstructor, hgo]
    rw [h2] at h
    exact themeGo_err_shape src toks {} e (by rw [hgo, Except.error.inj h])
  · have h2 : themeCommandConstructor src ct toks =
        Except.ok (ConfigCommand.ThemeCommand st.name st.component
          st.bgcolor st.fgcolor) := by
      simp only [themeCommandConstructor, hgo]
    rw [h2] at h
    simp at h

theorem setCommandConstructor_ok (src : String) (ct a b : ConfigToken)
    (rest : List ConfigToken) :
    setCommandConstructor src ct (a :: b :: rest) =
      Except.ok (ConfigCommand.SetCommand a b) := rfl

theorem mapCommandConstructor_ok (src : String) (ct a b c : ConfigToken)
    (rest : List ConfigToken) :
    mapCommandConstructor src ct (a :: b :: c :: rest) =
      Except.ok (ConfigCommand.MapCommand a b c) := rfl

theorem unmapCommandConstructor_ok (src : String) (ct a b : ConfigToken)
    (rest : List ConfigToken) :
    unmapCommandConstructor src ct (a :: b :: rest) =
      Except.ok (ConfigCommand.UnmapCommand a b) := rfl

theorem newTabCommandConstructor_ok (src : String) (ct a : ConfigToken)
    (rest : List ConfigToken) :
    newTabCommandConstructor src ct (a :: rest) =
      Except.ok (ConfigCommand.NewTabCommand a) := rfl

theorem parseCommand_eq_fixed (src : String) (ct : ConfigToken)
    (s : List ScanResult) (cd : commandDescriptor)
    (hlook : commandDescriptors ct.value = some cd) (hvar : cd.varArgs = false) :
    parseCommand src ct s = parseFixedArgs src cd ct cd.tokenTypes [] s := by
  simp [parseCommand, hlook, hvar]

theorem parseCommand_eq_var (src : String) (ct : ConfigToken)
    (s : List ScanResult) (cd : commandDescriptor)
    (hlook : commandDescriptors ct.value = some cd) (hvar : cd.varArgs = true) :
    parseCommand src ct s = parseVarArgsGo src cd ct [] s := by
  simp [parseCommand, hlook, hvar, parseVarArgsCommand]

theorem parseCommand_err_shape (src : String) (ct : ConfigToken)
    (s : List ScanResult) (cmd : Option ConfigCommand) (b : Bool) (e : String)
    (rest2 : List ScanResult)
    (hok : allOk s = true)
    (h : parseCommand src ct s = (cmd, b, some e, rest2)) :
    ∃ tok msg, e = generateConfigError src tok msg := by
  rcases hlook : commandDescriptors ct.value with _ | cd
  · simp only [parseCommand, hlook] at h
    simp only [Prod.mk.injEq, Option.some.injEq] at h
    exact ⟨ct, _, h.2.2.1.symm⟩
  · have hlook2 := hlook
    simp only [commandDescriptors] at hlook2
    split_ifs at hlook2 with h1 h2 h3 h4 h5 h6 h7 h8 h9 h10 h11
    · obtain rfl : cd = setCommandDescriptor := (Option.some.inj hlook2).symm
      rw [parseCommand_eq_fixed src ct s _ hlook rfl] at h
      rcases parseFixedArgs_err_shape src _ ct _ [] s cmd b e rest2 hok h with
        hL | ⟨toks, hlen, hcons⟩
      · exact hL
      · exfalso
        simp only [setCommandDescriptor] at hcons hlen
        rcases toks with _ | ⟨a, _ | ⟨b2, r⟩⟩ <;> simp at hlen
        rw [setCommandConstructor_ok] at hcons
        simp at hcons
    · obtain rfl : cd = themeCommandDescriptor := (Option.some.inj hlook2).symm
      rw [parseCommand_eq_fixed src ct s _ hlook rfl] at h
      rcases parseFixedArgs_err_shape src _ ct _ [] s cmd b e rest2 hok h with
        hL | ⟨toks, hlen, hcons⟩
      · exact hL
      · simp only [themeCommandDescriptor] at hcons
        exact themeConstructor_err_shape src ct toks e hcons
    · obtain rfl : cd = mapCommandDescriptor := (Option.some.inj hlook2).symm
      rw [parseCommand_eq_fixed src ct s _ hlook rfl] at h
      rcases parseFixedArgs_err_shape src _ ct _ [] s cmd b e rest2 hok h with
        hL | ⟨toks, hlen, hcons⟩
      · exact hL
      · exfalso
        simp only [mapCommandDescriptor] at hcons hlen
        rcases toks with _ | ⟨a, _ | ⟨b2, _ | ⟨c2, r⟩⟩⟩ <;> simp at hlen
        rw [mapCommandConstructor_ok] at hcons
        simp at hcons
    · obtain rfl : cd = unmapCommandDescriptor := (Option.some.inj hlook2).symm
      rw [parseCommand_eq_fixed src ct s _ hlook rfl] at h
      rcases parseFixedArgs_err_shape src _ ct _ [] s cmd b e rest2 hok h with
        hL | ⟨toks, hlen, hcons⟩
      · exact hL
      · exfalso
        simp only [unmapCommandDescriptor] at hcons hlen
        rcases toks with _ | ⟨a, _ | ⟨b2, r⟩⟩ <;> simp at hlen
        rw [unmapCommandConstructor_ok] at hcons
        simp at hcons
    · obtain rfl : cd = quitCommandDescriptor := (Option.some.inj hlook2).symm
      rw [parseCommand_eq_fixed src ct s _ hlook rfl] at h
      rcases parseFixedArgs_err_shape src _ ct _ [] s cmd b e rest2 hok h with
        hL | ⟨toks, hlen, hcons⟩
      · exact hL
      · exfalso
        simp only [quitCommandDescriptor] at hcons
        simp [quitCommandConstructor] at hcons
    · obtain rfl : cd = addtabCommandDescriptor := (Option.some.inj hlook2).symm
      rw [parseCommand_eq_fixed src ct s _ hlook rfl] at h
      rcases parseFixedArgs_err_shape src _ ct _ [] s cmd b e rest2 hok h with
        hL | ⟨toks, hlen, hcons⟩
      · exact hL
      · exfalso
        simp only [addtabCommandDescriptor] at hcons hlen
        rcases toks with _ | ⟨a, r⟩ <;> simp at hlen
        rw [newTabCommandConstructor_ok] at hcons
        simp at hcons
    · obtain rfl : cd = removetabCommandDescriptor := (Option.some.inj hlook2).symm
      rw [parseCommand_eq_fixed src ct s _ hlook rfl] at h
      rcases parseFixedArgs_err_shape src _ ct _ [] s cmd b e rest2 hok h with
        hL | ⟨toks, hlen, hcons⟩
      · exact hL
      · exfalso
        simp only [removetabCommandDescriptor] at hcons
        simp [newRemoveTabCommandConstructor] at hcons
    · obtain rfl : cd = addviewCommandDescriptor := (Option.some.inj hlook2).symm
      rw [parseCommand_eq_var src ct s _ hlook rfl] at h
      rcases parseVarArgsGo_err_shape src _ ct s.length s [] cmd b e rest2
        le_rfl hok h with hL | ⟨toks, hcons⟩
      · exact hL
      · simp only [addviewCommandDescriptor] at hcons
        exact addView_err_shape src ct toks e hcons
    · obtain rfl : cd = vsplitCommandDescriptor := (Option.some.inj hlook2).symm
      rw [parseCommand_eq_var src ct s _ hlook rfl] at h
      rcases parseVarArgsGo_err_shape src _ ct s.length s [] cmd b e rest2
        le_rfl hok h with hL | ⟨toks, hcons⟩
      · exact hL
      · simp only [vsplitCommandDescriptor] at hcons
        exact splitView_err_shape src ct toks e hcons
    · obtain rfl : cd = hsplitCommandDescriptor := (Option.some.inj hlook2).symm
      rw [parseCommand_eq_var src ct s _ hlook rfl] at h
      rcases parseVarArgsGo_err_shape src _ ct s.length s [] cmd b e rest2
        le_rfl hok h with hL | ⟨toks, hcons⟩
      · exact hL
      · simp only [hsplitCommandDescriptor] at hcons
        exact splitView_err_shape src ct toks e hcons
    · obtain rfl : cd = splitCommandDescriptor := (Option.some.inj hlook2).symm
      rw [parseCommand_eq_var src ct s _ hlook rfl] at h
      rcases parseVarArgsGo_err_shape src _ ct s.length s [] cmd b e rest2
        le_rfl hok h with hL | ⟨toks, hcons⟩
      · exact hL
      · simp only [splitCommandDescriptor] at hcons
        exact splitView_err_shape src ct toks e hcons

theorem parseLoopStep_err_shape (src : String) :
    ∀ (n : Nat) (s : List ScanResult) (e : String),
      s.length ≤ n → allOk s = true →
      (parseLoopStep src s).1.err = some e →
      ∃ tok msg, e = generateConfigError src tok msg := by
  intro n
  induction n with
  | zero =>
    intro s e hn hok h
    have hs : s = [] := List.eq_nil_of_length_eq_zero (Nat.le_zero.mp hn)
    subst hs
    rw [parseLoopStep_nil] at h
    simp at h
  | succ n ih =>
    intro s e hn hok h
    obtain ⟨t, rest, hps, hokr⟩ := pscan_allOk hok
    rw [parseLoopStep_eq] at h
    simp only [hps] at h
    rcases htok : t.tokenType with _ | _ | _ | _ | _ | _ | _ <;>
      simp only [htok] at h
    · rw [parseReturn_err] at h
      exact ⟨t, "Syntax Error", (Option.some.inj h).symm⟩
    · rw [parseReturn_err] at h
      rcases hpc : parseCommand src t rest with ⟨c4, b4, oe4, r4⟩
      rw [hpc] at h
      simp only at h
      rw [h] at hpc
      exact parseCommand_err_shape src t rest c4 b4 e r4 hokr hpc
    · rw [parseReturn_err] at h
      exact ⟨t, _, (Option.some.inj h).symm⟩
    · rw [parseReturn_err] at h
      exact ⟨t, _, (Option.some.inj h).symm⟩
    · rw [parseReturn_err] at h
      exact ⟨t, _, (Option.some.inj h).symm⟩
    · have hlt : rest.length < s.length :=
        pscan_lt_of_ok hps (by simp [htok])
      exact ih rest e (by omega) hokr h
    · rw [parseReturn_err] at h
      simp at h

/-- C9: every error produced by the parser itself — with the scanner never
failing raw, so every error Parse can return originates in the parser — is
built by the single formatting path generateConfigError: an optional
"source:line:col " prefix present exactly when the configured source label
is non-empty, then the message, then the offending token's embedded lexical
error appended as ": lexError" when present. -/
theorem parse_error_single_format (p : ConfigParser) (e : String)
    (hok : allOk p.scanner = true)
    (he : (ConfigParser.Parse p).1.err = some e) :
    ∃ tok msg, e = generateConfigError p.inputSource tok msg ∧
      e = (if p.inputSource = "" then ""
          else p.inputSource ++ ":" ++ toString tok.startPos.line ++ ":" ++
            toString tok.startPos.col ++ " ") ++ msg ++
        (match tok.err with
         | none => ""
         | some le => ": " ++ le) := by
  obtain ⟨s, src⟩ := p
  rw [Parse_eq] at he
  obtain ⟨tok, msg, hmsg⟩ :=
    parseLoopStep_err_shape src s.length s e le_rfl hok he
  refine ⟨tok, msg, hmsg, ?_⟩
  rw [hmsg]
  rfl

theorem parse_error_single_format_witness :
    ∃ tok msg,
      generateConfigError "cfg" (wordTok "nope") "Invalid command \"nope\"" =
        generateConfigError "cfg" tok msg ∧
      generateConfigError "cfg" (wordTok "nope") "Invalid command \"nope\"" =
        (if "cfg" = "" then ""
          else "cfg" ++ ":" ++ toString tok.startPos.line ++ ":" ++
            toString tok.startPos.col ++ " ") ++ msg ++
        (match tok.err with
         | none => ""
         | some le => ": " ++ le) :=
  parse_error_single_format
    ⟨[ScanResult.ok (wordTok "nope"), ScanResult.ok termTok], "cfg"⟩
    (generateConfigError "cfg" (wordTok "nope") "Invalid command \"nope\"")
    (by decide)
    (by rw [Parse_unknown "cfg" (wordTok "nope") [ScanResult.ok termTok] rfl rfl]
        rfl)
